import Mathlib

/- Shallow embedding of the "market-pattern-notebooks" trading-journal
repository.  The repository contains several self-contained rewrites of the
same client-side product:

  * ScriptA : src/script.js, first app (storage key "trade_records_v1")
  * ScriptB : src/script.js, second app (storage key "trades")
  * P0      : src/unnamed/part_000 (storage key "tradesRecords")
  * ES1     : src/unnamed/part_001, first app (storage key "tradeRecords_v1")
  * ES2     : src/unnamed/part_001, second app (storage key "tradeRecords_v1")

JavaScript numbers are modelled as rationals (every numeric operation used
by the modelled code is field arithmetic, rounding, or comparison, which is
exact on the values concerned); null/undefined is modelled as Option;
records are structures.  DOM rendering, event wiring and chart drawing are
outside the model; every data operation used by the claims is translated
from the source. -/

/-- JS Math.round on a rational: round half toward positive infinity. -/
def jsRound (q : ℚ) : ℤ := ⌊q + 1/2⌋

/-- JS Math.floor on a rational. -/
def jsFloor (q : ℚ) : ℤ := ⌊q⌋

/-- Lexicographic comparison of character lists by code point. -/
def charsLt : List Char → List Char → Bool
  | [], [] => false
  | [], _ :: _ => true
  | _ :: _, [] => false
  | a :: as, b :: bs =>
    if a.val < b.val then true
    else if b.val < a.val then false
    else charsLt as bs

/-- JS string comparison a < b (code-unit order; identical to code-point
order on the ISO-8601 timestamps the code compares). -/
def strLt (a b : String) : Bool := charsLt a.toList b.toList

/-- JS comparison a < b on nullable strings: a comparison involving
null/undefined is false. -/
def strLtOpt (a b : Option String) : Bool :=
  match a, b with
  | some x, some y => strLt x y
  | _, _ => false

/-- JS "new Date(a) > new Date(b)" on nullable ISO-8601 timestamp strings:
an invalid date (null/undefined operand) makes the comparison false; on
well-formed ISO timestamps the Date order is the lexicographic string
order, which is what we use. -/
def dateGt (a b : Option String) : Bool :=
  match a, b with
  | some x, some y => strLt y x
  | _, _ => false

/-- JS "a || b" on nullable strings: b when a is null/undefined or empty. -/
def jsOrStr (a b : Option String) : Option String :=
  match a with
  | some s => if s = "" then b else some s
  | none => b

/-- JS "a || b" on nullable numbers: b when a is null/undefined or zero. -/
def jsOrNum (a b : Option ℚ) : Option ℚ :=
  match a with
  | some x => if x = 0 then b else some x
  | none => b

/-- JS "p > 0" on a nullable number: false when p is null. -/
def jsGtZero (p : Option ℚ) : Bool :=
  match p with
  | some q => decide (0 < q)
  | none => false

/-- JS "p < 0" on a nullable number: false when p is null. -/
def jsLtZero (p : Option ℚ) : Bool :=
  match p with
  | some q => decide (q < 0)
  | none => false

/-- JS Number.toFixed(1) for the rationals occurring in reason strings. -/
def toFixed1 (q : ℚ) : String :=
  let n := jsRound (q * 10)
  toString (n / 10) ++ "." ++ toString ((n % 10).natAbs)

/-- JS Number.toFixed(2) for the rationals occurring in reason strings. -/
def toFixed2 (q : ℚ) : String :=
  let n := jsRound (q * 100)
  let frac := (n % 100).natAbs
  toString (n / 100) ++ "." ++ (if frac < 10 then "0" else "") ++ toString frac

/-- Result of JSON.parse on the value found under the persistence key:
the key can be absent, hold a string that is not valid JSON, hold a JSON
array of records, or hold some other JSON value (object/number/...). -/
inductive StoredJson (R : Type) where
  | absent : StoredJson R
  | corrupt : StoredJson R
  | arr : List R → StoredJson R
  | nonArray : StoredJson R
deriving DecidableEq

/-- Value of a JS variable that normally holds an array of records but can
have been assigned a parsed non-array JSON value. -/
inductive LoadedVal (R : Type) where
  | arr : List R → LoadedVal R
  | nonArray : LoadedVal R
deriving DecidableEq

/-- Parsed import payload.  "version" is the numeric version field (none
models a missing or non-numeric version, which fails the strict equality
test against 1 exactly like any number other than 1); "records" is the
records field (none models a missing or non-array value). -/
structure Payload (R : Type) where
  version : Option ℤ
  records : Option (List R)
deriving DecidableEq

/-! ### Tiered matching machinery shared by the two tier-based engines

Both script.js (second app, computePrediction) and part_000 (predictTrade)
run the same loop: walk an ordered list of feature subsets, filter the pool
by exact match on every feature of the current subset, and break at the
first subset whose match set reaches the minimum sample size, or at the
last subset. -/

def tierLoop {α κ : Type} (pool : List α) (sat : List κ → α → Bool) (minN : ℕ) :
    List (List κ) → ℕ → List α × ℕ
  | [], i => ([], i)
  | l :: rest, i =>
    let m := pool.filter (sat l)
    match rest with
    | [] => (m, i + 1)
    | r :: rs => if minN ≤ m.length then (m, i + 1) else tierLoop pool sat minN (r :: rs) (i + 1)

/-- Index of the first element satisfying P (specification-side helper:
"the first tier whose match set reaches the minimum sample size"). -/
def firstHit {β : Type} (P : β → Bool) : List β → Option ℕ
  | [] => none
  | b :: bs => if P b then some 0 else (firstHit P bs).map (· + 1)

/-! ### ScriptA — src/script.js, first app (storage key "trade_records_v1") -/

namespace ScriptA

/-- Prediction object returned by recommendationAlgorithm (script.js
lines 553-559).  In this variant expectedMove is stored as the toFixed(1)
display string. -/
structure Prediction where
  recommendation : String
  expectedMove : String
  expectedMoveUnit : String
  confidence : ℚ
  reason : String
deriving DecidableEq, Inhabited

/-- Entry object produced by formDataToEntryObject (script.js 159-173). -/
structure Entry where
  datetimeEntry : String
  symbol : String
  timeframe : String
  tradeType : String
  directionPlanned : String
  entryPrice : Option ℚ
  size : Option ℚ
  feePerUnit : ℚ
  plannedStopPrice : Option ℚ
  plannedLimitPrice : Option ℚ
  cutLossPrice : Option ℚ
  trend_5_20_40 : String
  price_vs_ema200 : String
  ema_band_color : String
  zone : String
  cmf_sign : String
  cmf_sma_dir : String
  roc_sign : String
  roc_sma_dir : String
  macd_state : String
  rsi_zone : String
  marketMemo : String
deriving DecidableEq, Inhabited

/-- TradeRecord of this variant (fields as written by the entry-form
submit handler, script.js 100-144).  createdAt/updatedAt are Option since
records arriving through JSON import may lack them (the merge code has an
explicit fallback for that case). -/
structure Record where
  id : String
  createdAt : Option String
  updatedAt : Option String
  hasResult : Bool
  datetimeEntry : String
  symbol : String
  timeframe : String
  tradeType : String
  directionPlanned : String
  entryPrice : Option ℚ
  size : Option ℚ
  feePerUnit : ℚ
  plannedStopPrice : Option ℚ
  plannedLimitPrice : Option ℚ
  cutLossPrice : Option ℚ
  trend_5_20_40 : String
  price_vs_ema200 : String
  ema_band_color : String
  zone : String
  cmf_sign : String
  cmf_sma_dir : String
  roc_sign : String
  roc_sma_dir : String
  macd_state : String
  rsi_zone : String
  marketMemo : String
  recommendation : String
  expectedMove : String
  expectedMoveUnit : String
  confidence : ℚ
  reason : String
  datetimeExit : Option String
  exitPrice : Option ℚ
  directionTaken : Option String
  highDuringTrade : Option ℚ
  lowDuringTrade : Option ℚ
  profit : Option ℚ
  note : String
  imageData : Option String
deriving DecidableEq, Inhabited

/-- Record created by the entry-form submit handler (script.js 99-144):
a brand-new record with hasResult false and every result field null. -/
def newRecord (entry : Entry) (pred : Prediction) (id now : String) : Record :=
  { id := id
    createdAt := some now
    updatedAt := some now
    hasResult := false
    datetimeEntry := entry.datetimeEntry
    symbol := entry.symbol
    timeframe := entry.timeframe
    tradeType := entry.tradeType
    directionPlanned := entry.directionPlanned
    entryPrice := entry.entryPrice
    size := entry.size
    feePerUnit := entry.feePerUnit
    plannedStopPrice := entry.plannedStopPrice
    plannedLimitPrice := entry.plannedLimitPrice
    cutLossPrice := entry.cutLossPrice
    trend_5_20_40 := entry.trend_5_20_40
    price_vs_ema200 := entry.price_vs_ema200
    ema_band_color := entry.ema_band_color
    zone := entry.zone
    cmf_sign := entry.cmf_sign
    cmf_sma_dir := entry.cmf_sma_dir
    roc_sign := entry.roc_sign
    roc_sma_dir := entry.roc_sma_dir
    macd_state := entry.macd_state
    rsi_zone := entry.rsi_zone
    marketMemo := entry.marketMemo
    recommendation := pred.recommendation
    expectedMove := pred.expectedMove
    expectedMoveUnit := pred.expectedMoveUnit
    confidence := pred.confidence
    reason := pred.reason
    datetimeExit := none
    exitPrice := none
    directionTaken := none
    highDuringTrade := none
    lowDuringTrade := none
    profit := none
    note := ""
    imageData := none }

/-- loadRecords (script.js 47-57): records starts as []; when a stored
value exists, JSON.parse is attempted and its result — whatever JSON value
it is — is assigned to records; only a parse failure resets to [].  There
is no array-shape check in this variant, so a parsed non-array value is
kept as-is.  The function never throws (the parse is wrapped in
try/catch). -/
def loadRecords (stored : StoredJson Record) : LoadedVal Record :=
  match stored with
  | .absent => .arr []
  | .corrupt => .arr []
  | .arr rs => .arr rs
  | .nonArray => .nonArray

/-- One iteration of the mergeImportedRecords forEach (script.js 612-628):
unseen id is appended (counted as added); for an existing id the record is
replaced only when the incoming date (updatedAt, falling back to
createdAt) is strictly newer (counted as updated). -/
def mergeStep (st : List Record × ℕ × ℕ) (imp : Record) : List Record × ℕ × ℕ :=
  match st with
  | (records, added, updated) =>
    match records.findIdx? (fun r => r.id == imp.id) with
    | none => (records ++ [imp], added + 1, updated)
    | some idx =>
      let existing := records.getD idx default
      let newDate := jsOrStr imp.updatedAt imp.createdAt
      let oldDate := jsOrStr existing.updatedAt existing.createdAt
      if dateGt newDate oldDate then (records.set idx imp, added, updated + 1)
      else (records, added, updated)

/-- mergeImportedRecords (script.js 609-630); returns the merged list and
the added/updated counters. -/
def mergeImportedRecords (records imported : List Record) : List Record × ℕ × ℕ :=
  imported.foldl mergeStep (records, 0, 0)

/-- Import path of setupJsonImportExport (script.js 583-605).  The handler
checks json.version !== 1 and alerts; with version 1 but a missing or
non-array records field, json.records.forEach throws a TypeError before
any mutation, which the surrounding catch reports — either way the store
is unchanged and the boolean error flag is set. -/
def importJson (p : Payload Record) (records : List Record) :
    (List Record × ℕ × ℕ) × Bool :=
  if p.version = some 1 then
    match p.records with
    | some rs => (mergeImportedRecords records rs, false)
    | none => ((records, 0, 0), true)
  else ((records, 0, 0), true)

end ScriptA

/-! ### Shared feature keys of the two tier-based engines

script.js (second app) and part_000 use the same ten indicator keys and
the same ordered list of five decreasingly strict key subsets. -/

inductive FeatKey where
  | trend_5_20_40
  | price_vs_ema200
  | ema_band_color
  | zone
  | cmf_sign
  | cmf_sma_dir
  | roc_sign
  | roc_sma_dir
  | macd_state
  | rsi_zone
deriving DecidableEq

/-- Ordered tier list (script.js 971-1006 and part_000 247-253): ten keys,
nine keys, seven keys, five keys, two keys. -/
def matchLevels : List (List FeatKey) :=
  [ [.trend_5_20_40, .price_vs_ema200, .ema_band_color, .zone, .cmf_sign,
     .cmf_sma_dir, .roc_sign, .roc_sma_dir, .macd_state, .rsi_zone],
    [.trend_5_20_40, .price_vs_ema200, .zone, .cmf_sign,
     .cmf_sma_dir, .roc_sign, .roc_sma_dir, .macd_state, .rsi_zone],
    [.trend_5_20_40, .price_vs_ema200, .zone, .cmf_sign, .roc_sign,
     .macd_state, .rsi_zone],
    [.trend_5_20_40, .zone, .cmf_sign, .macd_state, .rsi_zone],
    [.trend_5_20_40, .zone] ]

/-! ### ScriptB — src/script.js, second app (storage key "trades") -/

namespace ScriptB

/-- Trade record of this variant, as built by getEntryFormData
(script.js 888-933). -/
structure Trade where
  id : String
  createdAt : String
  updatedAt : String
  datetimeEntry : String
  symbol : String
  timeframe : String
  tradeType : String
  directionPlanned : String
  entryPrice : ℚ
  size : ℚ
  feePerUnit : ℚ
  plannedStopPrice : Option ℚ
  plannedLimitPrice : Option ℚ
  cutLossPrice : Option ℚ
  trend_5_20_40 : String
  price_vs_ema200 : String
  ema_band_color : String
  zone : String
  cmf_sign : String
  cmf_sma_dir : String
  roc_sign : String
  roc_sma_dir : String
  macd_state : String
  rsi_zone : String
  marketMemo : String
  imageData : Option String
  recommendation : Option String
  expectedMove : Option ℚ
  expectedMoveUnit : Option String
  confidence : Option ℚ
  reason : Option String
  hasResult : Bool
  datetimeExit : Option String
  exitPrice : Option ℚ
  directionTaken : Option String
  highDuringTrade : Option ℚ
  lowDuringTrade : Option ℚ
  profit : Option ℚ
  note : Option String
deriving DecidableEq, Inhabited

/-- Feature-key access t[key] of computePrediction. -/
def featOf (t : Trade) : FeatKey → String
  | .trend_5_20_40 => t.trend_5_20_40
  | .price_vs_ema200 => t.price_vs_ema200
  | .ema_band_color => t.ema_band_color
  | .zone => t.zone
  | .cmf_sign => t.cmf_sign
  | .cmf_sma_dir => t.cmf_sma_dir
  | .roc_sign => t.roc_sign
  | .roc_sma_dir => t.roc_sma_dir
  | .macd_state => t.macd_state
  | .rsi_zone => t.rsi_zone

/-- fields.every(key => t[key] === entry[key]) — script.js 1011-1013. -/
def tierSat (entry : Trade) (fields : List FeatKey) (t : Trade) : Bool :=
  fields.all (fun k => featOf t k == featOf entry k)

/-- Tier selection of computePrediction (script.js 1007-1018): pool is the
closed trades, minimum sample size 3; returns the matched set and the
1-based tier number actually used. -/
def predictionSelect (allTrades : List Trade) (entry : Trade) : List Trade × ℕ :=
  tierLoop (allTrades.filter (·.hasResult)) (tierSat entry) 3 matchLevels 0

/-- Per-direction aggregate of computePrediction (script.js 1031-1050). -/
structure DirRes where
  count : ℕ
  wins : ℕ
  winRate : ℚ
  avgMove : ℚ
deriving DecidableEq, Inhabited

/-- Statistics of one direction group (script.js 1032-1050).  The move
pushed for a record is (highDuringTrade || exitPrice) - entryPrice for
long and entryPrice - (lowDuringTrade || exitPrice) for short; a null
operand left by the || coerces to 0 in the subtraction, and the isNaN
guard never fires on the rational model. -/
def dirResult (matched : List Trade) (dirStr : String) : DirRes :=
  let group := matched.filter (fun t => t.directionTaken == some dirStr)
  let count := group.length
  let wins := (group.filter (fun t => jsGtZero t.profit)).length
  let moves := group.map (fun t =>
    if dirStr == "long" then (jsOrNum t.highDuringTrade t.exitPrice).getD 0 - t.entryPrice
    else t.entryPrice - (jsOrNum t.lowDuringTrade t.exitPrice).getD 0)
  { count := count
    wins := wins
    winRate := if 0 < count then (wins : ℚ) / count else 0
    avgMove := if 0 < moves.length then moves.foldl (· + ·) 0 / moves.length else 0 }

/-- Prediction returned by computePrediction. -/
structure Pred where
  recommendation : String
  expectedMove : ℚ
  expectedMoveUnit : String
  confidence : ℤ
  reason : String
deriving DecidableEq, Inhabited

/-- computePrediction (script.js 969-1116), translated clause by clause:
tier selection, per-direction win rates and average moves, direction
choice (win-rate gap over 0.05, then average-move comparison), rounding of
the expected move to the nearest 10, and the confidence built from a base
of 50, a tier bonus, a sample bonus capped at 20 and the win-rate gap. -/
def computePrediction (allTrades : List Trade) (entry : Trade) : Pred :=
  let sel := predictionSelect allTrades entry
  let matched := sel.1
  let usedLevel := sel.2
  let longRes := dirResult matched "long"
  let shortRes := dirResult matched "short"
  let recEm : String × ℚ :=
    if longRes.count < 3 ∧ shortRes.count < 3 then ("flat", 0)
    else if shortRes.winRate + 0.05 < longRes.winRate then ("long", longRes.avgMove)
    else if longRes.winRate + 0.05 < shortRes.winRate then ("short", shortRes.avgMove)
    else if shortRes.avgMove < longRes.avgMove then ("long", longRes.avgMove)
    else if longRes.avgMove < shortRes.avgMove then ("short", shortRes.avgMove)
    else ("flat", 0)
  let expectedMove : ℚ :=
    if recEm.2 = 0 then recEm.2 else (jsRound (recEm.2 / 10) : ℚ) * 10
  let usedSamples := matched.length
  let tierBonus : ℚ :=
    if usedLevel = 1 then 20 else if usedLevel = 2 then 10
    else if usedLevel = 3 then 0 else if usedLevel = 4 then -10 else -20
  let base : ℚ := 50 + tierBonus + min ((usedSamples : ℚ) * 5) 20
    + |longRes.winRate - shortRes.winRate| * 100
  let confidence : ℤ := max 0 (min 100 (jsRound base))
  let reason : String :=
    if recEm.1 == "long" ∨ recEm.1 == "short" then
      let res := if recEm.1 == "long" then longRes else shortRes
      let dirJp := if recEm.1 == "long" then "ロング" else "ショート"
      "同条件に近い過去" ++ dirJp ++ "の勝率" ++ toFixed1 (res.winRate * 100)
        ++ "%・平均最大伸び約" ++ toString (jsRound res.avgMove) ++ "で" ++ dirJp ++ "優勢"
    else "類似データが少ないか勝率が拮抗しているためノーポジ推奨"
  { recommendation := recEm.1
    expectedMove := expectedMove
    expectedMoveUnit := "ポイント"
    confidence := confidence
    reason := reason }

/-- Exit form state read by the result-save-btn click handler
(script.js 1285-1292).  exitPrice/size/fee model parseFloat results (none
is NaN from an empty field); high/low model the "parseFloat(...) || null"
expressions. -/
structure ResultForm where
  datetimeExit : String
  exitPrice : Option ℚ
  directionTaken : String
  size : Option ℚ
  fee : Option ℚ
  high : Option ℚ
  low : Option ℚ
  note : String
deriving DecidableEq, Inhabited

/-- result-save-btn click handler (script.js 1278-1324): validates the
required fields, recomputes the profit as (exit - entry - fee) * size for
long (reversed for short) WITHOUT any instrument multiplier, rounds it to
two decimals, and marks the trade resolved.  none is the validation
failure (error message, store untouched). -/
def resultSave (trade : Trade) (form : ResultForm) (now : String) : Option Trade :=
  match form.exitPrice, form.size, form.fee with
  | some exitPrice, some size, some fee =>
    if form.datetimeExit = "" then none
    else
      let profit : ℚ :=
        if form.directionTaken == "long" then (exitPrice - trade.entryPrice - fee) * size
        else if form.directionTaken == "short" then (trade.entryPrice - exitPrice - fee) * size
        else 0
      some { trade with
        datetimeExit := some form.datetimeExit
        exitPrice := some exitPrice
        directionTaken := some form.directionTaken
        size := size
        feePerUnit := fee
        highDuringTrade := form.high
        lowDuringTrade := form.low
        note := some form.note
        profit := some ((jsRound (profit * 100) : ℚ) / 100)
        hasResult := true
        updatedAt := now }
  | _, _, _ => none

/-- One iteration of the import merge (script.js 1661-1673): unseen id is
appended (added); an existing id is replaced only when the incoming
updatedAt is strictly newer (updated). -/
def mergeStep (st : List Trade × ℕ × ℕ) (rec0 : Trade) : List Trade × ℕ × ℕ :=
  match st with
  | (trades, added, updated) =>
    match trades.findIdx? (fun t => t.id == rec0.id) with
    | none => (trades ++ [rec0], added + 1, updated)
    | some idx =>
      let existing := trades.getD idx default
      if strLt existing.updatedAt rec0.updatedAt then (trades.set idx rec0, added, updated + 1)
      else (trades, added, updated)

/-- Import handler (script.js 1646-1684): json.version !== 1 or a
non-array records field is rejected with an error message and no change;
otherwise the records are merged and saved. -/
def importJson (p : Payload Trade) (trades : List Trade) :
    (List Trade × ℕ × ℕ) × Bool :=
  if p.version = some 1 then
    match p.records with
    | some rs => (rs.foldl mergeStep (trades, 0, 0), false)
    | none => ((trades, 0, 0), true)
  else ((trades, 0, 0), true)

end ScriptB

/-! ### P0 — src/unnamed/part_000 (storage key "tradesRecords") -/

namespace P0

/-- Feature object built by getFeatureData (part_000 67-86). -/
structure Features where
  trend_5_20_40 : String
  price_vs_ema200 : String
  ema_band_color : String
  zone : String
  cmf_sign : String
  cmf_sma_dir : String
  macd_state : String
  roc_sign : String
  roc_sma_dir : String
  rsi_zone : String
deriving DecidableEq, Inhabited

/-- Record built by buildRecord (part_000 89-155).  buildRecord leaves
updatedAt unset (none); records imported from the JSON exports of the
other variants may carry one, and the import code of this variant never
reads it. -/
structure Rec0 where
  id : String
  datetime : String
  symbol : String
  timeframe : String
  tradeType : String
  direction_planned : String
  expected_move_value : Option ℚ
  expected_move_unit : String
  trend_5_20_40 : String
  price_vs_ema200 : String
  ema_band_color : String
  zone : String
  cmf_sign : String
  cmf_sma_dir : String
  macd_state : String
  roc_sign : String
  roc_sma_dir : String
  rsi_zone : String
  entry_price : Option ℚ
  stop_price : Option ℚ
  take_price : Option ℚ
  exit_price : Option ℚ
  direction_taken : String
  move : Option ℚ
  profit : Option ℚ
  rRatio : Option ℚ
  note : String
  market_memo : String
  imageData : Option String
  recommendation : String
  confidence : ℤ
  predicted_move : ℤ
  predicted_move_unit : String
  reason : String
  updatedAt : Option String
deriving DecidableEq, Inhabited

/-- Feature-key access rec[key] of predictTrade. -/
def featOf (r : Rec0) : FeatKey → String
  | .trend_5_20_40 => r.trend_5_20_40
  | .price_vs_ema200 => r.price_vs_ema200
  | .ema_band_color => r.ema_band_color
  | .zone => r.zone
  | .cmf_sign => r.cmf_sign
  | .cmf_sma_dir => r.cmf_sma_dir
  | .roc_sign => r.roc_sign
  | .roc_sma_dir => r.roc_sma_dir
  | .macd_state => r.macd_state
  | .rsi_zone => r.rsi_zone

/-- features[key] access on the candidate profile. -/
def featF (f : Features) : FeatKey → String
  | .trend_5_20_40 => f.trend_5_20_40
  | .price_vs_ema200 => f.price_vs_ema200
  | .ema_band_color => f.ema_band_color
  | .zone => f.zone
  | .cmf_sign => f.cmf_sign
  | .cmf_sma_dir => f.cmf_sma_dir
  | .roc_sign => f.roc_sign
  | .roc_sma_dir => f.roc_sma_dir
  | .macd_state => f.macd_state
  | .rsi_zone => f.rsi_zone

/-- keys.every(key => rec[key] === features[key]) — part_000 258. -/
def tierSat (features : Features) (keys : List FeatKey) (r : Rec0) : Bool :=
  keys.all (fun k => featOf r k == featF features k)

/-- Tier selection of predictTrade (part_000 254-264): the pool is ALL
records (this variant applies no closed-trade filter), the minimum sample
size is 5; returns the similar set and the 1-based level used. -/
def predictSelect (records : List Rec0) (features : Features) : List Rec0 × ℕ :=
  tierLoop records (tierSat features) 5 matchLevels 0

/-- Prediction object returned by predictTrade (part_000 317-322). -/
structure Pred where
  recommendation : String
  expectedMove : ℤ
  confidence : ℤ
  reason : String
deriving DecidableEq, Inhabited

/-- predictTrade (part_000 244-323): tier selection over all records,
per-direction averages of the stored move (a non-numeric move counts 0),
direction choice by the bigger positive average, confidence
30 + 5·samples - 10·level clamped to [0,100] (and
max(0, 5·samples - 5·level) when fewer than 3 similar records), and the
final rounding of the expected move. -/
def predictTrade (records : List Rec0) (features : Features) : Pred :=
  let sel := predictSelect records features
  let similar := sel.1
  let levelUsed := sel.2
  let longRecords := similar.filter (fun r => r.direction_taken == "long")
  let shortRecords := similar.filter (fun r => r.direction_taken == "short")
  let longAvg : ℚ :=
    if 0 < longRecords.length then
      (longRecords.foldl (fun s r => s + r.move.getD 0) 0) / longRecords.length
    else 0
  let shortAvg : ℚ :=
    if 0 < shortRecords.length then
      (shortRecords.foldl (fun s r => s + r.move.getD 0) 0) / shortRecords.length
    else 0
  let core : String × ℚ × ℚ × String :=
    if similar.length < 3 then
      ("flat", 0, max 0 ((5 : ℚ) * similar.length - (levelUsed : ℚ) * 5),
        "類似パターンが少ないため、ポジションを取らない方が良いと判断しました。")
    else
      let recEm : String × ℚ :=
        if 0 < longAvg ∧ shortAvg < longAvg then ("long", longAvg)
        else if 0 < shortAvg ∧ longAvg < shortAvg then ("short", shortAvg)
        else ("flat", 0)
      let conf : ℚ := max 0 (min 100 ((30 : ℚ) + (similar.length : ℚ) * 5 - (levelUsed : ℚ) * 10))
      let reasonBase := "過去の類似パターン" ++ toString similar.length
        ++ "件の平均値幅を比較すると、ロング平均=" ++ toFixed2 longAvg
        ++ ", ショート平均=" ++ toFixed2 shortAvg ++ "。"
      let reasonTail :=
        if recEm.1 == "long" then "ロング側の平均値幅が大きいためロングを推奨します。"
        else if recEm.1 == "short" then "ショート側の平均値幅が大きいためショートを推奨します。"
        else "有効な優位性が見つからないためノーポジを推奨します。"
      (recEm.1, recEm.2, conf, reasonBase ++ reasonTail)
  let roundedMove : ℤ :=
    if 20 ≤ |core.2.1| then jsRound (core.2.1 / 10) * 10 else jsRound core.2.1
  { recommendation := core.1
    expectedMove := roundedMove
    confidence := jsRound core.2.2.1
    reason := core.2.2.2 }

/-- One iteration of the import forEach (part_000 741-747): a record whose
id already exists is skipped entirely; an unseen id is appended. -/
def importStep (records : List Rec0) (rec0 : Rec0) : List Rec0 :=
  if records.any (fun r => r.id == rec0.id) then records
  else records ++ [rec0]

/-- Import handler (part_000 729-763): version/array validation, then the
append-if-unseen loop; the added count is the length difference. -/
def importFile (p : Payload Rec0) (records : List Rec0) : (List Rec0 × ℕ) × Bool :=
  if p.version = some 1 then
    match p.records with
    | some rs =>
      let final := rs.foldl importStep records
      ((final, final.length - records.length), false)
    | none => ((records, 0), true)
  else ((records, 0), true)

end P0

/-! ### ES — shared record shape of the two part_001 EdgeScope apps

The two apps in part_001 persist the same TradeRecord shape under the same
storage key.  The judgement-result object has a pseudoCaseCount field in
the first app and a reason field in the second; both are modelled as
Option fields (none for the field the variant does not produce). -/

namespace ES

/-- Entry-form values (collectEntryValues, part_001 225-280, and
readEntryForm, part_001 1294-1347). -/
structure Entry where
  datetimeEntry : Option String
  symbol : String
  timeframe : String
  tradeType : String
  directionPlanned : String
  entryPrice : Option ℚ
  size : Option ℚ
  feePerUnit : Option ℚ
  plannedStopPrice : Option ℚ
  plannedLimitPrice : Option ℚ
  cutLossPrice : Option ℚ
  prevWave : String
  trend_5_20_40 : String
  price_vs_ema200 : String
  ema_band_color : String
  zone : String
  cmf_sign : String
  cmf_sma_dir : String
  macd_state : String
  roc_sign : String
  roc_sma_dir : String
  rsi_zone : String
  minWinRate : Option ℚ
  marketMemo : String
  notionUrl : String
  imageData : Option String
deriving DecidableEq, Inhabited

/-- Persisted TradeRecord of the part_001 apps. -/
structure Record where
  id : String
  createdAt : Option String
  updatedAt : Option String
  datetimeEntry : Option String
  symbol : String
  timeframe : String
  tradeType : String
  directionPlanned : String
  entryPrice : Option ℚ
  size : Option ℚ
  feePerUnit : Option ℚ
  plannedStopPrice : Option ℚ
  plannedLimitPrice : Option ℚ
  cutLossPrice : Option ℚ
  prevWave : String
  trend_5_20_40 : String
  price_vs_ema200 : String
  ema_band_color : String
  zone : String
  cmf_sign : String
  cmf_sma_dir : String
  macd_state : String
  roc_sign : String
  roc_sma_dir : String
  rsi_zone : String
  minWinRate : Option ℚ
  marketMemo : String
  notionUrl : String
  imageData : Option String
  recommendation : Option String
  expectedMove : Option ℚ
  expectedMoveUnit : Option String
  confidence : Option ℤ
  winRate : Option ℚ
  avgProfit : Option ℚ
  avgLoss : Option ℚ
  pseudoCaseCount : Option ℕ
  reason : Option String
  hasResult : Bool
  datetimeExit : Option String
  exitPrice : Option ℚ
  directionTaken : Option String
  highDuringTrade : Option ℚ
  lowDuringTrade : Option ℚ
  profit : Option ℚ
  resultMemo : String
deriving DecidableEq, Inhabited

/-- Judgement result of judgeTrade.  The first app produces
pseudoCaseCount and no reason; the second produces reason and no
pseudoCaseCount. -/
structure JudgeResult where
  recommendation : String
  winRate : Option ℚ
  confidence : ℤ
  expectedMove : Option ℚ
  expectedMoveUnit : Option String
  avgProfit : Option ℚ
  avgLoss : Option ℚ
  pseudoCaseCount : Option ℕ
  reason : Option String
deriving DecidableEq, Inhabited

/-- The eleven feature keys shared by both judgeTrade implementations
(part_001 394-397 and 1529-1541), in source order. -/
inductive Feat where
  | prevWave
  | trend_5_20_40
  | price_vs_ema200
  | ema_band_color
  | zone
  | cmf_sign
  | cmf_sma_dir
  | macd_state
  | roc_sign
  | roc_sma_dir
  | rsi_zone
deriving DecidableEq

def featList : List Feat :=
  [.prevWave, .trend_5_20_40, .price_vs_ema200, .ema_band_color, .zone,
   .cmf_sign, .cmf_sma_dir, .macd_state, .roc_sign, .roc_sma_dir, .rsi_zone]

/-- entry[key] access. -/
def entryFeat (e : Entry) : Feat → String
  | .prevWave => e.prevWave
  | .trend_5_20_40 => e.trend_5_20_40
  | .price_vs_ema200 => e.price_vs_ema200
  | .ema_band_color => e.ema_band_color
  | .zone => e.zone
  | .cmf_sign => e.cmf_sign
  | .cmf_sma_dir => e.cmf_sma_dir
  | .macd_state => e.macd_state
  | .roc_sign => e.roc_sign
  | .roc_sma_dir => e.roc_sma_dir
  | .rsi_zone => e.rsi_zone

/-- rec[key] access. -/
def recFeat (r : Record) : Feat → String
  | .prevWave => r.prevWave
  | .trend_5_20_40 => r.trend_5_20_40
  | .price_vs_ema200 => r.price_vs_ema200
  | .ema_band_color => r.ema_band_color
  | .zone => r.zone
  | .cmf_sign => r.cmf_sign
  | .cmf_sma_dir => r.cmf_sma_dir
  | .macd_state => r.macd_state
  | .roc_sign => r.roc_sign
  | .roc_sma_dir => r.roc_sma_dir
  | .rsi_zone => r.rsi_zone

end ES

/-! ### ES1 — src/unnamed/part_001, first app -/

namespace ES1

/-- loadTradeRecords (part_001 30-44): absent key gives []; a parse
failure or a parsed non-array value falls through to the reset line, which
resets storage to [] (second component true) and returns [].
The function never throws. -/
def loadTradeRecords (stored : StoredJson ES.Record) : List ES.Record × Bool :=
  match stored with
  | .absent => ([], false)
  | .arr rs => (rs, false)
  | .corrupt => ([], true)
  | .nonArray => ([], true)

/-- Import path of setupStatsTab (part_001 195-219): after JSON.parse, an
Array.isArray check and a user confirmation, the imported array REPLACES
tradeRecords wholesale (line 204: tradeRecords = imported). -/
def statsTabImport (tradeRecords imported : List ES.Record) : List ES.Record :=
  imported

/-- Match counter of judgeTrade (part_001 399-403):
entry[key] && rec[key] && entry[key] === rec[key], so an empty string on
either side does not count. -/
def matchCount (entry : ES.Entry) (rec0 : ES.Record) : ℕ :=
  ES.featList.countP (fun k =>
    (ES.entryFeat entry k != "") && (ES.recFeat rec0 k != "")
      && (ES.entryFeat entry k == ES.recFeat rec0 k))

/-- Candidate pool of judgeTrade (part_001 392): same symbol AND closed. -/
def candidates (tradeRecords : List ES.Record) (entry : ES.Entry) : List ES.Record :=
  tradeRecords.filter (fun r => r.symbol == entry.symbol && r.hasResult)

/-- Similar-case pool of judgeTrade (part_001 398-408): candidates whose
match ratio over the eleven features is at least 0.5. -/
def similarCases (tradeRecords : List ES.Record) (entry : ES.Entry) : List ES.Record :=
  (candidates tradeRecords entry).filter (fun rec0 =>
    decide ((0.5 : ℚ) ≤ (matchCount entry rec0 : ℚ) / 11))

/-- Mutable per-direction accumulator of judgeTrade (part_001 423-438). -/
structure Acc where
  count : ℕ
  winCount : ℕ
  profitSum : ℚ
  profitCount : ℕ
  lossSum : ℚ
  lossCount : ℕ
  moveSum : ℚ
  moveCount : ℕ
deriving DecidableEq, Inhabited

def accInit : Acc := ⟨0, 0, 0, 0, 0, 0, 0, 0⟩

/-- One iteration of the statsByDir forEach (part_001 439-466) for a
record already routed to the accumulator of its direction. -/
def accStep (dirStr : String) (s : Acc) (rec0 : ES.Record) : Acc :=
  let p := rec0.profit.getD 0
  let s1 : Acc := { s with count := s.count + 1 }
  let s2 : Acc :=
    if 0 < p then
      { s1 with
        winCount := s1.winCount + 1
        profitSum := s1.profitSum + p
        profitCount := s1.profitCount + 1 }
    else if p < 0 then
      { s1 with lossSum := s1.lossSum + p, lossCount := s1.lossCount + 1 }
    else s1
  match rec0.entryPrice with
  | some ep =>
    if dirStr == "long" then
      match rec0.highDuringTrade with
      | some h => { s2 with moveSum := s2.moveSum + max 0 (h - ep), moveCount := s2.moveCount + 1 }
      | none => s2
    else if dirStr == "short" then
      match rec0.lowDuringTrade with
      | some lo => { s2 with moveSum := s2.moveSum + max 0 (ep - lo), moveCount := s2.moveCount + 1 }
      | none => s2
    else s2
  | none => s2

/-- The single pass over the similar cases filling the long and short
accumulators (part_001 439-466); records with another directionTaken are
skipped. -/
def accumulate (similar : List ES.Record) : Acc × Acc :=
  similar.foldl (fun (st : Acc × Acc) rec0 =>
    if rec0.directionTaken == some "long" then (accStep "long" st.1 rec0, st.2)
    else if rec0.directionTaken == some "short" then (st.1, accStep "short" st.2 rec0)
    else st) (accInit, accInit)

/-- Final per-direction statistics (part_001 467-475): the rate/average
fields are only filled when the direction has at least one record;
expectedMove stays undefined (none) otherwise. -/
structure Stats where
  count : ℕ
  winCount : ℕ
  winRate : ℚ
  avgProfit : ℚ
  avgLoss : ℚ
  expectedMove : Option ℚ
deriving DecidableEq, Inhabited

def finishAcc (s : Acc) : Stats :=
  if 0 < s.count then
    { count := s.count
      winCount := s.winCount
      winRate := (s.winCount : ℚ) / s.count * 100
      avgProfit := if 0 < s.profitCount then s.profitSum / s.profitCount else 0
      avgLoss := if 0 < s.lossCount then s.lossSum / s.lossCount else 0
      expectedMove := some (if 0 < s.moveCount then s.moveSum / s.moveCount else 0) }
  else
    { count := s.count, winCount := s.winCount, winRate := 0,
      avgProfit := 0, avgLoss := 0, expectedMove := none }

/-- Candidate-direction selection (part_001 476-492): long is examined
first (bestWinRate starts at -1), then short replaces it on a strictly
higher win rate, or on a tie with a strictly higher avgProfit + avgLoss
score (the score of a missing candidate is minus infinity). -/
def pickDirection (sL sS : Stats) : Option String :=
  let cand1 : Option String × ℚ :=
    if 0 < sL.count then (some "long", sL.winRate) else (none, -1)
  if 0 < sS.count ∧ cand1.2 < sS.winRate then some "short"
  else if 0 < sS.count ∧ sS.winRate = cand1.2 then
    match cand1.1 with
    | some _ =>
      if sL.avgProfit + sL.avgLoss < sS.avgProfit + sS.avgLoss then some "short" else cand1.1
    | none => some "short"
  else cand1.1

/-- judgeTrade (part_001 390-527).  With an empty similar-case pool the
result is the fixed object of lines 410-421: flat, winRate 0,
confidence 0, null move and averages — and NO reason field (this variant
never produces one).  Otherwise the statistics are aggregated per
direction, the direction with the best win rate is recommended when its
win rate reaches the minWinRate threshold, and the confidence is
round(min(100, count/(count+5) · winRate)). -/
def judgeTrade (tradeRecords : List ES.Record) (entry : ES.Entry) : ES.JudgeResult :=
  let similar := similarCases tradeRecords entry
  let pseudoCaseCount := similar.length
  if pseudoCaseCount = 0 then
    { recommendation := "flat", winRate := some 0, confidence := 0,
      expectedMove := none, expectedMoveUnit := none, avgProfit := none,
      avgLoss := none, pseudoCaseCount := some pseudoCaseCount, reason := none }
  else
    let st := accumulate similar
    let sL := finishAcc st.1
    let sS := finishAcc st.2
    let cand := pickDirection sL sS
    let threshold := entry.minWinRate.getD 0
    let core : String × ℚ × Option ℚ × Option ℚ × Option ℚ × Option String :=
      match cand with
      | some d =>
        let s := if d == "long" then sL else sS
        if threshold ≤ s.winRate ∧ 0 < s.count then
          (d, s.winRate, some s.avgProfit, some s.avgLoss, s.expectedMove, some "円")
        else ("flat", s.winRate, some s.avgProfit, some s.avgLoss, none, none)
      | none => ("flat", 0, none, none, none, none)
    let winRate := core.2.1
    let confScore : ℚ := ((pseudoCaseCount : ℚ) / ((pseudoCaseCount : ℚ) + 5)) * winRate
    { recommendation := core.1
      winRate := some ((jsRound (winRate * 10) : ℚ) / 10)
      confidence := jsRound (min 100 confScore)
      expectedMove := core.2.2.2.2.1.map (fun em => (jsRound (em * 10) : ℚ) / 10)
      expectedMoveUnit := core.2.2.2.2.2
      avgProfit := core.2.2.1.map (fun v => (jsRound (v * 10) : ℚ) / 10)
      avgLoss := core.2.2.2.1.map (fun v => (jsRound (v * 10) : ℚ) / 10)
      pseudoCaseCount := some pseudoCaseCount
      reason := none }

/-- saveNewTrade (part_001 589-601): Object.assign of the entry values,
the judgement result and the literal {id, createdAt, updatedAt,
directionTaken: entry.directionPlanned, hasResult: false}; the result
fields keep the entry placeholders (all null). -/
def saveNewTradeRecord (entry : ES.Entry) (result : ES.JudgeResult) (id now : String) :
    ES.Record :=
  { id := id
    createdAt := some now
    updatedAt := some now
    datetimeEntry := entry.datetimeEntry
    symbol := entry.symbol
    timeframe := entry.timeframe
    tradeType := entry.tradeType
    directionPlanned := entry.directionPlanned
    entryPrice := entry.entryPrice
    size := entry.size
    feePerUnit := entry.feePerUnit
    plannedStopPrice := entry.plannedStopPrice
    plannedLimitPrice := entry.plannedLimitPrice
    cutLossPrice := entry.cutLossPrice
    prevWave := entry.prevWave
    trend_5_20_40 := entry.trend_5_20_40
    price_vs_ema200 := entry.price_vs_ema200
    ema_band_color := entry.ema_band_color
    zone := entry.zone
    cmf_sign := entry.cmf_sign
    cmf_sma_dir := entry.cmf_sma_dir
    macd_state := entry.macd_state
    roc_sign := entry.roc_sign
    roc_sma_dir := entry.roc_sma_dir
    rsi_zone := entry.rsi_zone
    minWinRate := entry.minWinRate
    marketMemo := entry.marketMemo
    notionUrl := entry.notionUrl
    imageData := entry.imageData
    recommendation := some result.recommendation
    expectedMove := result.expectedMove
    expectedMoveUnit := result.expectedMoveUnit
    confidence := some result.confidence
    winRate := result.winRate
    avgProfit := result.avgProfit
    avgLoss := result.avgLoss
    pseudoCaseCount := result.pseudoCaseCount
    reason := result.reason
    hasResult := false
    datetimeExit := none
    exitPrice := none
    directionTaken := some entry.directionPlanned
    highDuringTrade := none
    lowDuringTrade := none
    profit := none
    resultMemo := "" }

/-- Exit-form values read by saveExitResult (part_001 687-694). -/
structure ExitForm where
  datetimeExit : Option String
  exitPrice : Option ℚ
  highDuringTrade : Option ℚ
  lowDuringTrade : Option ℚ
  resultMemo : String
deriving DecidableEq, Inhabited

/-- saveExitResult (part_001 682-728): the base profit is
(exit - entry - fee) · size for directionTaken long (reversed for short,
0 when a needed value is null or the direction is anything else), then the
per-symbol multiplier (nk225mc 10, nk225m 100, nk225 1000, otherwise 1)
scales it; the record is marked resolved. -/
def saveExitResult (rec0 : ES.Record) (form : ExitForm) (now : String) : ES.Record :=
  let baseProfit : ℚ :=
    if rec0.directionTaken == some "long" then
      match rec0.entryPrice, form.exitPrice, rec0.size, rec0.feePerUnit with
      | some ep, some xp, some sz, some fee => (xp - ep - fee) * sz
      | _, _, _, _ => 0
    else if rec0.directionTaken == some "short" then
      match rec0.entryPrice, form.exitPrice, rec0.size, rec0.feePerUnit with
      | some ep, some xp, some sz, some fee => (ep - xp - fee) * sz
      | _, _, _, _ => 0
    else 0
  let multiplier : ℚ :=
    if rec0.symbol == "nk225mc" then 10
    else if rec0.symbol == "nk225m" then 100
    else if rec0.symbol == "nk225" then 1000
    else 1
  let profit := baseProfit * multiplier
  { rec0 with
    datetimeExit := form.datetimeExit
    exitPrice := form.exitPrice
    highDuringTrade := form.highDuringTrade
    lowDuringTrade := form.lowDuringTrade
    resultMemo := form.resultMemo
    profit := some profit
    hasResult := true
    updatedAt := some now }

end ES1

/-! ### ES2 — src/unnamed/part_001, second app -/

namespace ES2

/-- Application state of the second EdgeScope app: the record array and
the two editing identifiers (part_001 1050-1064). -/
structure State where
  tradeRecords : List ES.Record
  editingEntryId : Option String
  editingExitId : Option String
deriving DecidableEq, Inhabited

/-- loadRecords (part_001 1097-1115): absent key gives []; a parse failure
or a parsed non-array value alerts the user, resets the store to [] and
returns [] (second component: the user was alerted and storage reset).
The function never throws. -/
def loadRecords (stored : StoredJson ES.Record) : List ES.Record × Bool :=
  match stored with
  | .absent => ([], false)
  | .arr rs => (rs, false)
  | .corrupt => ([], true)
  | .nonArray => ([], true)

/-- getMultiplier (part_001 1863-1868). -/
def getMultiplier (symbol : String) : ℚ :=
  if symbol == "nk225mc" then 10
  else if symbol == "nk225m" then 100
  else if symbol == "nk225" then 1000
  else 1

/-- avg (part_001 1876-1879): null on an empty list. -/
def avg (arr : List ℚ) : Option ℚ :=
  if arr.length = 0 then none
  else some (arr.foldl (· + ·) 0 / arr.length)

/-- Similar-record pool of judgeTrade (part_001 1543-1555): closed records
whose feature-match ratio is at least 0.4.  The entry features are plain
strings here, so the null/undefined guard of line 1549 never fires and
the condition is plain equality. -/
def similarRecords (tradeRecords : List ES.Record) (entry : ES.Entry) : List ES.Record :=
  let completed := tradeRecords.filter (·.hasResult)
  completed.filter (fun rec0 =>
    let matchN := ES.featList.countP (fun f => ES.entryFeat entry f == ES.recFeat rec0 f)
    decide ((0.4 : ℚ) ≤ (matchN : ℚ) / 11))

/-- Per-direction statistics of judgeTrade (part_001 1585-1622): all
fields null for an empty group. -/
structure Stats where
  winRate : Option ℚ
  avgProfit : Option ℚ
  avgLoss : Option ℚ
  expectedMove : Option ℚ
deriving DecidableEq, Inhabited

/-- computeStats (part_001 1585-1622).  The move of a record converts its
profit back to a price difference through the symbol multiplier and the
size; only positive moves are kept. -/
def computeStats (records : List ES.Record) : Stats :=
  if records.length = 0 then ⟨none, none, none, none⟩
  else
    let wins := (records.filter (fun r => jsGtZero r.profit)).length
    let profits := (records.filter (fun r => jsGtZero r.profit)).map (fun r => r.profit.getD 0)
    let losses := (records.filter (fun r => jsLtZero r.profit)).map (fun r => r.profit.getD 0)
    let moves := records.foldr (fun r acc =>
      match r.size, r.profit with
      | some sz, some p =>
        if sz ≠ 0 then
          let baseProfit := p / getMultiplier r.symbol
          let mv := baseProfit / sz
          if 0 < mv then mv :: acc else acc
        else acc
      | _, _ => acc) []
    let total := records.length
    { winRate := if 0 < total then some ((wins : ℚ) / total * 100) else none
      avgProfit := avg profits
      avgLoss := avg losses
      expectedMove := avg moves }

/-- One direction candidate of the best-direction fold (part_001
1627-1641). -/
structure Cand where
  dir : String
  stats : Stats
deriving DecidableEq, Inhabited

/-- judgeTrade (part_001 1527-1678).  An empty similar pool returns the
fixed flat result with confidence 0 and the no-similar-cases reason.
Otherwise the similar records are grouped by directionTaken, the direction
with the highest non-null win rate is recommended when it reaches the
minWinRate threshold, and the confidence is
min(100, floor(simCount/10 · 50 + winRate/2)).  toLocaleString in the
reason is modelled as plain decimal printing. -/
def judgeTrade (tradeRecords : List ES.Record) (entry : ES.Entry) : ES.JudgeResult :=
  let similar := similarRecords tradeRecords entry
  if similar.length = 0 then
    { recommendation := "flat", winRate := none, confidence := 0,
      expectedMove := none, expectedMoveUnit := none, avgProfit := none,
      avgLoss := none, pseudoCaseCount := none,
      reason := some "類似ケースがありません。ノーポジ推奨。" }
  else
    let longGroup := similar.filter (fun r => r.directionTaken == some "long")
    let shortGroup := similar.filter (fun r => r.directionTaken == some "short")
    let flatGroup := similar.filter (fun r => r.directionTaken == some "flat")
    let longStats := computeStats longGroup
    let shortStats := computeStats shortGroup
    let flatStats := computeStats flatGroup
    let candidates : List Cand :=
      (if longStats.winRate ≠ none then [⟨"long", longStats⟩] else [])
        ++ (if shortStats.winRate ≠ none then [⟨"short", shortStats⟩] else [])
        ++ (if flatStats.winRate ≠ none then [⟨"flat", flatStats⟩] else [])
    let best : Cand :=
      match candidates.foldl (fun best c =>
        match best with
        | none => some c
        | some b => if b.stats.winRate.getD 0 < c.stats.winRate.getD 0 then some c else some b)
        none with
      | some b => b
      | none => ⟨"flat", flatStats⟩
    let threshold := entry.minWinRate.getD 0
    let recommendation :=
      match best.stats.winRate with
      | none => "flat"
      | some wr => if wr < threshold then "flat" else best.dir
    let simCount := similar.length
    let conf : ℤ := min 100 (jsFloor (((simCount : ℚ) / 10) * 50 + best.stats.winRate.getD 0 / 2))
    let winCount := ((longGroup ++ shortGroup ++ flatGroup).filter (fun r => jsGtZero r.profit)).length
    let overallWinRate : ℤ :=
      if 0 < simCount then jsRound ((winCount : ℚ) / simCount * 100) else 0
    let part1 := "類似ケース" ++ toString simCount ++ "件中" ++ toString winCount
      ++ "件勝ち（勝率" ++ toString overallWinRate ++ "%）"
    let parts2 := [part1] ++ (match best.stats.avgProfit with
      | some ap => ["平均利益 +" ++ toString (jsRound ap) ++ "円"]
      | none => [])
    let parts3 := parts2 ++ (match best.stats.avgLoss with
      | some al => ["平均損失 " ++ toString (jsRound al) ++ "円"]
      | none => [])
    let parts4 := parts3 ++ ["直前の波: " ++ entry.prevWave ++ " / EMA Band: "
      ++ entry.ema_band_color ++ " / CMF方向: " ++ entry.cmf_sma_dir]
    { recommendation := recommendation
      winRate := best.stats.winRate
      confidence := conf
      expectedMove := if recommendation == "flat" then none else best.stats.expectedMove
      expectedMoveUnit := if recommendation == "flat" then none else some "価格差"
      avgProfit := best.stats.avgProfit
      avgLoss := best.stats.avgLoss
      pseudoCaseCount := none
      reason := some (String.intercalate "、" parts4) }

/-- Record stored for a new entry by saveEntry (part_001 1445-1481, new
branch): the entry values, the judgement result, directionTaken copied
from directionPlanned, stamps, hasResult false, null result fields. -/
def saveEntryRecord (entry : ES.Entry) (result : ES.JudgeResult) (id now : String) : ES.Record :=
  { id := id
    createdAt := some now
    updatedAt := some now
    datetimeEntry := entry.datetimeEntry
    symbol := entry.symbol
    timeframe := entry.timeframe
    tradeType := entry.tradeType
    directionPlanned := entry.directionPlanned
    entryPrice := entry.entryPrice
    size := entry.size
    feePerUnit := entry.feePerUnit
    plannedStopPrice := entry.plannedStopPrice
    plannedLimitPrice := entry.plannedLimitPrice
    cutLossPrice := entry.cutLossPrice
    prevWave := entry.prevWave
    trend_5_20_40 := entry.trend_5_20_40
    price_vs_ema200 := entry.price_vs_ema200
    ema_band_color := entry.ema_band_color
    zone := entry.zone
    cmf_sign := entry.cmf_sign
    cmf_sma_dir := entry.cmf_sma_dir
    macd_state := entry.macd_state
    roc_sign := entry.roc_sign
    roc_sma_dir := entry.roc_sma_dir
    rsi_zone := entry.rsi_zone
    minWinRate := entry.minWinRate
    marketMemo := entry.marketMemo
    notionUrl := entry.notionUrl
    imageData := entry.imageData
    recommendation := some result.recommendation
    expectedMove := result.expectedMove
    expectedMoveUnit := result.expectedMoveUnit
    confidence := some result.confidence
    winRate := result.winRate
    avgProfit := result.avgProfit
    avgLoss := result.avgLoss
    pseudoCaseCount := result.pseudoCaseCount
    reason := result.reason
    hasResult := false
    datetimeExit := none
    exitPrice := none
    directionTaken := some entry.directionPlanned
    highDuringTrade := none
    lowDuringTrade := none
    profit := none
    resultMemo := "" }

/-- saveEntry (part_001 1445-1481).  With an editing id set, the matching
record is rebuilt from the form but keeps its createdAt and all result
fields; otherwise the new record is appended.  Either way editingEntryId
is cleared afterwards. -/
def saveEntry (s : State) (entry : ES.Entry) (result : ES.JudgeResult)
    (freshId now : String) : State :=
  match s.editingEntryId with
  | some eid =>
    (match s.tradeRecords.findIdx? (fun r => r.id == eid) with
     | some idx =>
       let old := s.tradeRecords.getD idx default
       let updated : ES.Record :=
         { saveEntryRecord entry result eid now with
           createdAt := old.createdAt
           hasResult := old.hasResult
           datetimeExit := old.datetimeExit
           exitPrice := old.exitPrice
           highDuringTrade := old.highDuringTrade
           lowDuringTrade := old.lowDuringTrade
           profit := old.profit
           resultMemo := old.resultMemo }
       { s with tradeRecords := s.tradeRecords.set idx updated, editingEntryId := none }
     | none => { s with editingEntryId := none })
  | none =>
    { s with
      tradeRecords := s.tradeRecords ++ [saveEntryRecord entry result freshId now]
      editingEntryId := none }

/-- Exit-form values read by updateResult (part_001 1806-1813). -/
structure ExitForm where
  datetimeExit : Option String
  exitPrice : Option ℚ
  highDuringTrade : Option ℚ
  lowDuringTrade : Option ℚ
  resultMemo : String
deriving DecidableEq, Inhabited

/-- updateResult (part_001 1802-1839): updates the record selected in the
exit form, computes profit as the direction-dependent base times the
symbol multiplier when every needed value is present (null profit
otherwise), and marks the record resolved. -/
def updateResult (s : State) (form : ExitForm) (now : String) : State :=
  match s.editingExitId with
  | none => s
  | some eid =>
    match s.tradeRecords.findIdx? (fun r => r.id == eid) with
    | none => s
    | some idx =>
      let r0 := s.tradeRecords.getD idx default
      let profit : Option ℚ :=
        match form.exitPrice, r0.entryPrice, r0.size, r0.feePerUnit with
        | some xp, some ep, some sz, some fee =>
          let baseProfit : ℚ :=
            if r0.directionTaken == some "long" then (xp - ep - fee) * sz
            else if r0.directionTaken == some "short" then (ep - xp - fee) * sz
            else 0
          some (baseProfit * getMultiplier r0.symbol)
        | _, _, _, _ => none
      let r1 : ES.Record :=
        { r0 with
          datetimeExit := form.datetimeExit
          exitPrice := form.exitPrice
          highDuringTrade := form.highDuringTrade
          lowDuringTrade := form.lowDuringTrade
          resultMemo := form.resultMemo
          hasResult := true
          profit := profit
          updatedAt := some now }
      { s with tradeRecords := s.tradeRecords.set idx r1 }

/-- One iteration of the importRecords forEach (part_001 2230-2242):
unseen id appended (added); existing id replaced only when
existing.updatedAt < rec.updatedAt (updated). -/
def mergeStep (st : List ES.Record × ℕ × ℕ) (rec0 : ES.Record) : List ES.Record × ℕ × ℕ :=
  match st with
  | (tradeRecords, added, updated) =>
    match tradeRecords.findIdx? (fun r => r.id == rec0.id) with
    | none => (tradeRecords ++ [rec0], added + 1, updated)
    | some idx =>
      let existing := tradeRecords.getD idx default
      if strLtOpt existing.updatedAt rec0.updatedAt then
        (tradeRecords.set idx rec0, added, updated + 1)
      else (tradeRecords, added, updated)

/-- importRecords (part_001 2223-2247): data must be an object with
version exactly 1 and an array records field, otherwise the user is
alerted and nothing changes; valid payloads are merged record by
record. -/
def importRecords (data : Payload ES.Record) (tradeRecords : List ES.Record) :
    (List ES.Record × ℕ × ℕ) × Bool :=
  if data.version = some 1 then
    match data.records with
    | some rs => (rs.foldl mergeStep (tradeRecords, 0, 0), false)
    | none => ((tradeRecords, 0, 0), true)
  else ((tradeRecords, 0, 0), true)

/-- deleteRecordById (part_001 1976-1992): the record at the first index
whose id matches is removed; when the deleted id is the one loaded in the
entry or exit editing form, that editing id is cleared (clearEntryForm
itself resets editingEntryId at line 1515, and the delete handler clears
both ids explicitly); an id that is not found changes nothing. -/
def deleteRecordById (id : String) (s : State) : State :=
  match s.tradeRecords.findIdx? (fun r => r.id == id) with
  | none => s
  | some idx =>
    let s1 : State := { s with tradeRecords := s.tradeRecords.eraseIdx idx }
    let s2 : State :=
      if s1.editingEntryId = some id then { s1 with editingEntryId := none } else s1
    if s2.editingExitId = some id then { s2 with editingExitId := none } else s2

end ES2

/-! ### Concrete fixtures used by counterexamples and witnesses -/

/-- The nk225mc long trade of the profit example, as a record of the
part_001 apps. -/
def cexRecES : ES.Record :=
  { (default : ES.Record) with
    id := "e1"
    symbol := "nk225mc"
    directionTaken := some "long"
    entryPrice := some 27000
    size := some 2
    feePerUnit := some 5 }

/-- Exit form closing the example trade at 27100. -/
def cexExitForm : ES1.ExitForm :=
  { datetimeExit := some "2024-01-02T10:00"
    exitPrice := some 27100
    highDuringTrade := none
    lowDuringTrade := none
    resultMemo := "" }

/-- The same trade as a record of the second script.js app. -/
def cexTradeB : ScriptB.Trade :=
  { (default : ScriptB.Trade) with
    id := "t1"
    symbol := "nk225mc"
    entryPrice := 27000 }

/-- Exit form of the script.js result-save handler for the example. -/
def cexFormB : ScriptB.ResultForm :=
  { datetimeExit := "2024-01-02T10:00"
    exitPrice := some 27100
    directionTaken := "long"
    size := some 2
    fee := some 5
    high := none
    low := none
    note := "" }

/-- Existing part_000 record with id A and an old updatedAt. -/
def cexRec0old : P0.Rec0 :=
  { (default : P0.Rec0) with
    id := "A"
    profit := some 100
    updatedAt := some "2024-01-01T00:00:00Z" }

/-- Incoming record with the same id and a strictly newer updatedAt. -/
def cexRec0new : P0.Rec0 :=
  { (default : P0.Rec0) with
    id := "A"
    profit := some 999
    updatedAt := some "2024-01-02T00:00:00Z" }

/-- Valid version-1 payload carrying the newer record. -/
def cexPayload0 : Payload P0.Rec0 := ⟨some 1, some [cexRec0new]⟩

/-- Version-2 payload (invalid) for the import-validation witness. -/
def cexBadPayloadA : Payload ScriptA.Record := ⟨some 2, some []⟩

/-- Entry-form fixture for the part_001 apps. -/
def cexEntryES : ES.Entry := default

/-- Entry-form fixture planning a long trade. -/
def cexEntryLong : ES.Entry := { (default : ES.Entry) with directionPlanned := "long" }

/-- Judgement-result fixture. -/
def cexResultES : ES.JudgeResult := default

/-- Candidate feature profile for part_000 (every reading empty, matching
the open fixture record on all ten keys). -/
def cexFeat0 : P0.Features := default

/-- An unresolved part_000 record: no exit price, no move, no profit. -/
def cexOpenRec0 : P0.Rec0 := { (default : P0.Rec0) with id := "o1", direction_taken := "long" }

/-- Five unresolved records forming the candidate pool of the C5
counterexample. -/
def cexPool0 : List P0.Rec0 :=
  [cexOpenRec0, cexOpenRec0, cexOpenRec0, cexOpenRec0, cexOpenRec0]

/-- Application state of the second part_001 app holding the example
record, loaded in both editing forms. -/
def cexState : ES2.State := ⟨[cexRecES], some "e1", some "e1"⟩

/-! ### Generic list lemmas used by the import/delete proofs -/

theorem findIdx?_append_cons {α : Type} (p : α → Bool) (ex : α) (hex : p ex = true) :
    ∀ (l₁ l₂ : List α), (∀ r ∈ l₁, p r = false) →
      List.findIdx? p (l₁ ++ ex :: l₂) = some l₁.length := by
  intro l₁
  induction l₁ with
  | nil =>
    intro l₂ _
    simp [List.findIdx?_cons, hex]
  | cons a l ih =>
    intro l₂ hall
    have ha : p a = false := hall a (by simp)
    have hrest : ∀ r ∈ l, p r = false := fun r hr => hall r (by simp [hr])
    simp [List.findIdx?_cons, ha, List.findIdx?_succ, ih l₂ hrest]

theorem getD_append_cons {α : Type} (d ex : α) :
    ∀ (l₁ l₂ : List α), (l₁ ++ ex :: l₂).getD l₁.length d = ex := by
  intro l₁
  induction l₁ with
  | nil => intro l₂; simp
  | cons a l ih => intro l₂; simpa using ih l₂

theorem set_append_cons {α : Type} (x ex : α) :
    ∀ (l₁ l₂ : List α), (l₁ ++ ex :: l₂).set l₁.length x = l₁ ++ x :: l₂ := by
  intro l₁
  induction l₁ with
  | nil => intro l₂; simp
  | cons a l ih => intro l₂; simp [ih l₂]

theorem eraseIdx_append_cons {α : Type} (ex : α) :
    ∀ (l₁ l₂ : List α), (l₁ ++ ex :: l₂).eraseIdx l₁.length = l₁ ++ l₂ := by
  intro l₁
  induction l₁ with
  | nil => intro l₂; simp
  | cons a l ih => intro l₂; simp [List.eraseIdx_cons_succ, ih l₂]

theorem findIdx?_some_getElem {α : Type} (p : α → Bool) :
    ∀ (l : List α) (j : ℕ), List.findIdx? p l = some j →
      ∃ h : j < l.length, p (l[j]) = true := by
  intro l
  induction l with
  | nil => intro j h; simp [List.findIdx?] at h
  | cons a l ih =>
    intro j h
    rw [List.findIdx?_cons, List.findIdx?_succ] at h
    by_cases hpa : p a = true
    · simp [hpa] at h
      subst h
      exact ⟨by simp, by simpa using hpa⟩
    · simp [hpa] at h
      obtain ⟨i, hi, rfl⟩ := h
      obtain ⟨hlt, hp⟩ := ih i hi
      exact ⟨by simpa using Nat.succ_lt_succ hlt, by simpa using hp⟩

theorem any_set_of_any {α : Type} (q : α → Bool) (l : List α) (i : ℕ) (x : α)
    (hi : i < l.length) (hsame : q (l[i]) = true → q x = true)
    (h : l.any q = true) : (l.set i x).any q = true := by
  rw [List.any_eq_true] at h
  obtain ⟨r, hr, hqr⟩ := h
  obtain ⟨j, hj, rfl⟩ := List.mem_iff_getElem.mp hr
  rw [List.any_eq_true]
  have hjs : j < (l.set i x).length := by simpa using hj
  by_cases hij : i = j
  · subst hij
    refine ⟨x, ?_, hsame hqr⟩
    have hmem : (l.set i x).get ⟨i, hjs⟩ ∈ l.set i x := List.get_mem _ _ hjs
    rwa [List.get_eq_getElem, List.getElem_set_self hjs] at hmem
  · refine ⟨l[j], ?_, hqr⟩
    have hmem : (l.set i x).get ⟨j, hjs⟩ ∈ l.set i x := List.get_mem _ _ hjs
    rwa [List.get_eq_getElem, List.getElem_set_ne hij hjs] at hmem

/-! ### Lemmas about the tiered-matching loop -/

theorem getLastD_cons_of_ne_nil {α : Type} (a d : α) (l : List α) (h : l ≠ []) :
    (a :: l).getLastD d = l.getLastD d := by
  cases l with
  | nil => exact absurd rfl h
  | cons b bs => simp [List.getLastD_cons]

theorem tierLoop_eq_firstHit {α κ : Type} (pool : List α) (sat : List κ → α → Bool) (minN : ℕ) :
    ∀ (lvls : List (List κ)) (i : ℕ), lvls ≠ [] →
      tierLoop pool sat minN lvls i =
        match firstHit (fun l => decide (minN ≤ (pool.filter (sat l)).length)) lvls with
        | some j => (pool.filter (sat (lvls.getD j [])), i + j + 1)
        | none => (pool.filter (sat (lvls.getLastD [])), i + lvls.length) := by
  intro lvls
  induction lvls with
  | nil => intro i h; exact absurd rfl h
  | cons l rest ih =>
    intro i _
    cases rest with
    | nil =>
      by_cases hP : minN ≤ (pool.filter (sat l)).length
      · simp [tierLoop, firstHit, hP]
      · simp [tierLoop, firstHit, hP]
    | cons r rs =>
      by_cases hP : minN ≤ (pool.filter (sat l)).length
      · simp [tierLoop, firstHit, hP]
      · have hne : (r :: rs) ≠ ([] : List (List κ)) := by simp
        rw [show tierLoop pool sat minN (l :: r :: rs) i
            = tierLoop pool sat minN (r :: rs) (i + 1) by simp [tierLoop, hP]]
        rw [ih (i + 1) hne]
        rw [show firstHit (fun l => decide (minN ≤ (pool.filter (sat l)).length)) (l :: r :: rs)
            = (firstHit (fun l => decide (minN ≤ (pool.filter (sat l)).length)) (r :: rs)).map (· + 1) by
          simp [firstHit, hP]]
        cases hfh : firstHit (fun l => decide (minN ≤ (pool.filter (sat l)).length)) (r :: rs) with
        | none =>
          simp only [hfh, Option.map_none]
          rw [getLastD_cons_of_ne_nil l [] (r :: rs) hne]
          simp [List.length_cons]
          ring_nf
        | some j =>
          simp only [hfh, Option.map_some]
          simp [List.getD_cons_succ]
          ring_nf

/-! ### C8 — load never throws, degraded fallbacks -/

/-- C8 counterexample: script.js loadRecords has no array-shape check; a
stored value that parses to a non-array JSON value (for example the valid
JSON text "5") is assigned to the records variable as-is instead of being
replaced by an empty collection. -/
theorem c8_counterexample :
    ScriptA.loadRecords StoredJson.nonArray = LoadedVal.nonArray
      ∧ LoadedVal.nonArray ≠ (LoadedVal.arr [] : LoadedVal ScriptA.Record) := by
  exact ⟨rfl, by simp⟩

/-- C8 (amended): the two part_001 loaders return the stored array when
the value is an array and the empty collection on an absent key, a parse
failure or a non-array value (resetting storage, with an alert in the
second app), and never throw (the embedding is a total function);
script.js loadRecords returns the empty collection on an absent key or a
parse failure but keeps a parsed non-array value as-is, since it has no
shape check.  No loader ever fabricates a record. -/
theorem c8_load_behavior :
    (∀ rs : List ES.Record,
        ES1.loadTradeRecords (.arr rs) = (rs, false)
      ∧ ES2.loadRecords (.arr rs) = (rs, false))
  ∧ (∀ rs : List ScriptA.Record, ScriptA.loadRecords (.arr rs) = .arr rs)
  ∧ (ES1.loadTradeRecords .absent = ([], false)
      ∧ ES1.loadTradeRecords .corrupt = ([], true)
      ∧ ES1.loadTradeRecords .nonArray = ([], true))
  ∧ (ES2.loadRecords .absent = ([], false)
      ∧ ES2.loadRecords .corrupt = ([], true)
      ∧ ES2.loadRecords .nonArray = ([], true))
  ∧ (ScriptA.loadRecords .absent = .arr []
      ∧ ScriptA.loadRecords .corrupt = .arr []
      ∧ ScriptA.loadRecords .nonArray = .nonArray) := by
  refine ⟨fun rs => ⟨rfl, rfl⟩, fun rs => rfl, ⟨rfl, rfl, rfl⟩, ⟨rfl, rfl, rfl⟩, rfl, rfl, rfl⟩

/-! ### C9 — fresh records and the hasResult/result-fields invariant -/

/-- C9 counterexample: a record freshly created by part_001 saveNewTrade
has hasResult = false but directionTaken holding the planned
direction (not null), so the claimed equivalence "hasResult = false iff
all result fields are null" fails on this cited operation. -/
theorem c9_counterexample :
    (ES1.saveNewTradeRecord cexEntryLong cexResultES "id1" "2024-01-01T00:00:00Z").hasResult = false
  ∧ (ES1.saveNewTradeRecord cexEntryLong cexResultES "id1" "2024-01-01T00:00:00Z").directionTaken
      = some "long"
  ∧ some "long" ≠ (none : Option String) := by
  exact ⟨rfl, rfl, by simp⟩

/-- C9 (amended): a record freshly created by the script.js entry form
satisfies the full equivalence material — hasResult = false with
datetimeExit, exitPrice, directionTaken, highDuringTrade, lowDuringTrade
and profit all null; in the two part_001 apps a fresh record has
hasResult = false and datetimeExit, exitPrice, highDuringTrade,
lowDuringTrade and profit null, but directionTaken is set to the
planned direction (never null), so the equivalence holds there only with
directionTaken excluded from the null result fields. -/
theorem c9_fresh_records :
    (∀ (entry : ScriptA.Entry) (pred : ScriptA.Prediction) (id now : String),
        (ScriptA.newRecord entry pred id now).hasResult = false
      ∧ (ScriptA.newRecord entry pred id now).datetimeExit = none
      ∧ (ScriptA.newRecord entry pred id now).exitPrice = none
      ∧ (ScriptA.newRecord entry pred id now).directionTaken = none
      ∧ (ScriptA.newRecord entry pred id now).highDuringTrade = none
      ∧ (ScriptA.newRecord entry pred id now).lowDuringTrade = none
      ∧ (ScriptA.newRecord entry pred id now).profit = none)
  ∧ (∀ (entry : ES.Entry) (result : ES.JudgeResult) (id now : String),
        (ES1.saveNewTradeRecord entry result id now).hasResult = false
      ∧ (ES1.saveNewTradeRecord entry result id now).datetimeExit = none
      ∧ (ES1.saveNewTradeRecord entry result id now).exitPrice = none
      ∧ (ES1.saveNewTradeRecord entry result id now).highDuringTrade = none
      ∧ (ES1.saveNewTradeRecord entry result id now).lowDuringTrade = none
      ∧ (ES1.saveNewTradeRecord entry result id now).profit = none
      ∧ (ES1.saveNewTradeRecord entry result id now).directionTaken
          = some entry.directionPlanned)
  ∧ (∀ (entry : ES.Entry) (result : ES.JudgeResult) (id now : String),
        (ES2.saveEntryRecord entry result id now).hasResult = false
      ∧ (ES2.saveEntryRecord entry result id now).datetimeExit = none
      ∧ (ES2.saveEntryRecord entry result id now).exitPrice = none
      ∧ (ES2.saveEntryRecord entry result id now).highDuringTrade = none
      ∧ (ES2.saveEntryRecord entry result id now).lowDuringTrade = none
      ∧ (ES2.saveEntryRecord entry result id now).profit = none
      ∧ (ES2.saveEntryRecord entry result id now).directionTaken
          = some entry.directionPlanned) := by
  refine ⟨fun e p i n => ⟨rfl, rfl, rfl, rfl, rfl, rfl, rfl⟩,
    fun e r i n => ⟨rfl, rfl, rfl, rfl, rfl, rfl, rfl⟩,
    fun e r i n => ⟨rfl, rfl, rfl, rfl, rfl, rfl, rfl⟩⟩

/-! ### C4 — import validation rejects bad payloads with no partial merge -/

/-- C4 (confirmed): in all three cited import paths, a payload whose
version is not exactly 1 or whose records field is missing or not an
array leaves the record collection completely unchanged and reports an
error to the user (the error flag of the model).  In the first script.js
app the non-array case surfaces as a TypeError from records.forEach that
the surrounding catch reports, still before any mutation. -/
theorem c4_import_validation :
    (∀ (p : Payload ScriptA.Record) (records : List ScriptA.Record),
        p.version ≠ some 1 ∨ p.records = none →
        ScriptA.importJson p records = ((records, 0, 0), true))
  ∧ (∀ (p : Payload ScriptB.Trade) (trades : List ScriptB.Trade),
        p.version ≠ some 1 ∨ p.records = none →
        ScriptB.importJson p trades = ((trades, 0, 0), true))
  ∧ (∀ (p : Payload ES.Record) (records : List ES.Record),
        p.version ≠ some 1 ∨ p.records = none →
        ES2.importRecords p records = ((records, 0, 0), true)) := by
  refine ⟨fun p records h => ?_, fun p trades h => ?_, fun p records h => ?_⟩
  · rcases h with h | h
    · simp [ScriptA.importJson, h]
    · by_cases hv : p.version = some 1
      · simp [ScriptA.importJson, hv, h]
      · simp [ScriptA.importJson, hv]
  · rcases h with h | h
    · simp [ScriptB.importJson, h]
    · by_cases hv : p.version = some 1
      · simp [ScriptB.importJson, hv, h]
      · simp [ScriptB.importJson, hv]
  · rcases h with h | h
    · simp [ES2.importRecords, h]
    · by_cases hv : p.version = some 1
      · simp [ES2.importRecords, hv, h]
      · simp [ES2.importRecords, hv]

/-- C4 witness: the version-2 payload is rejected and the store is
unchanged. -/
theorem c4_import_validation_witness :
    (cexBadPayloadA.version ≠ some 1 ∨ cexBadPayloadA.records = none)
  ∧ ScriptA.importJson cexBadPayloadA [] = (([], 0, 0), true) :=
  ⟨Or.inl (by decide), c4_import_validation.1 cexBadPayloadA [] (Or.inl (by decide))⟩

/-! ### C1 — profit formula and the instrument multiplier -/

/-- C1 counterexample: closing the example trade (entry 27000, exit
27100, fee 5, size 2, symbol nk225mc, direction long) through the
script.js result-save handler yields profit 190, not the claimed 1900 —
that handler applies no instrument multiplier. -/
theorem c1_counterexample :
    (ScriptB.resultSave cexTradeB cexFormB "2024-01-02T10:01").map (fun t => t.profit)
      = some (some 190)
  ∧ (190 : ℚ) ≠ 1900 := by
  constructor
  · simp only [ScriptB.resultSave, cexTradeB, cexFormB]
    norm_num [jsRound]
    exact ⟨_, ⟨by simp, rfl⟩, rfl⟩
  · norm_num

/-- C1 (amended): in part_001, saveExitResult computes profit as
(exit - entry - fee) · size for directionTaken long — reversed for
short — times the instrument multiplier of getMultiplier (nk225mc 10,
nk225m 100, nk225 1000, anything else 1), and the example record yields
profit 1900; the script.js result-save handler computes the same
direction-dependent base rounded to two decimals but applies no
multiplier. -/
theorem c1_profit_formula :
    (∀ (rec0 : ES.Record) (form : ES1.ExitForm) (now : String) (ep xp sz fee : ℚ),
        rec0.directionTaken = some "long" → rec0.entryPrice = some ep →
        form.exitPrice = some xp → rec0.size = some sz → rec0.feePerUnit = some fee →
        (ES1.saveExitResult rec0 form now).profit
          = some ((xp - ep - fee) * sz * ES2.getMultiplier rec0.symbol))
  ∧ (∀ (rec0 : ES.Record) (form : ES1.ExitForm) (now : String) (ep xp sz fee : ℚ),
        rec0.directionTaken = some "short" → rec0.entryPrice = some ep →
        form.exitPrice = some xp → rec0.size = some sz → rec0.feePerUnit = some fee →
        (ES1.saveExitResult rec0 form now).profit
          = some ((ep - xp - fee) * sz * ES2.getMultiplier rec0.symbol))
  ∧ (ES2.getMultiplier "nk225mc" = 10 ∧ ES2.getMultiplier "nk225m" = 100
      ∧ ES2.getMultiplier "nk225" = 1000 ∧ ES2.getMultiplier "other" = 1)
  ∧ (ES1.saveExitResult cexRecES cexExitForm "2024-01-02T10:01").profit = some 1900
  ∧ (∀ (trade : ScriptB.Trade) (form : ScriptB.ResultForm) (now : String) (xp sz fee : ℚ),
        form.exitPrice = some xp → form.size = some sz → form.fee = some fee →
        form.datetimeExit ≠ "" → form.directionTaken = "long" →
        (ScriptB.resultSave trade form now).map (fun t => t.profit)
          = some (some ((jsRound ((xp - trade.entryPrice - fee) * sz * 100) : ℚ) / 100))) := by
  refine ⟨?_, ?_, ⟨rfl, rfl, rfl, rfl⟩, ?_, ?_⟩
  · intro rec0 form now ep xp sz fee hdir hep hxp hsz hfee
    simp [ES1.saveExitResult, ES2.getMultiplier, hdir, hep, hxp, hsz, hfee]
  · intro rec0 form now ep xp sz fee hdir hep hxp hsz hfee
    simp [ES1.saveExitResult, ES2.getMultiplier, hdir, hep, hxp, hsz, hfee]
  · simp only [ES1.saveExitResult, cexRecES, cexExitForm]
    norm_num
  · intro trade form now xp sz fee hxp hsz hfee hdt hdir
    simp [ScriptB.resultSave, hxp, hsz, hfee, hdt, hdir]

/-- C1 witness: the amended formula applied to the example record gives
profit (27100 - 27000 - 5) · 2 · multiplier(nk225mc). -/
theorem c1_profit_formula_witness :
    cexRecES.directionTaken = some "long"
  ∧ (ES1.saveExitResult cexRecES cexExitForm "2024-01-02T10:01").profit
      = some ((27100 - 27000 - 5) * 2 * ES2.getMultiplier cexRecES.symbol) :=
  ⟨rfl, c1_profit_formula.1 cexRecES cexExitForm "2024-01-02T10:01" 27000 27100 2 5
    rfl rfl rfl rfl rfl⟩

/-! ### C2 — import never deletes records -/

theorem foldl_preserves {α β : Type} (f : β → α → β) (P : β → Prop)
    (hstep : ∀ b a, P b → P (f b a)) : ∀ (l : List α) (b : β), P b → P (l.foldl f b) := by
  intro l
  induction l with
  | nil => intro b hb; simpa using hb
  | cons a l ih => intro b hb; exact ih (f b a) (hstep b a hb)

theorem mergeStepA_preserves (x : String) (st : List ScriptA.Record × ℕ × ℕ)
    (imp : ScriptA.Record) (h : st.1.any (fun r => r.id == x) = true) :
    (ScriptA.mergeStep st imp).1.any (fun r => r.id == x) = true := by
  rcases st with ⟨recs, a, u⟩
  simp only at h
  cases hf : recs.findIdx? (fun r => r.id == imp.id) with
  | none =>
    simp only [ScriptA.mergeStep, hf, List.any_append]
    simp [h]
  | some idx =>
    obtain ⟨hlt, hp⟩ := findIdx?_some_getElem _ recs idx hf
    simp only [ScriptA.mergeStep, hf]
    split
    · refine any_set_of_any _ recs idx imp hlt ?_ h
      intro hx
      have h1 : (recs[idx]).id = imp.id := by simpa using hp
      have h2 : (recs[idx]).id = x := by simpa using hx
      have h3 : imp.id = x := h1.symm.trans h2
      simp [h3]
    · exact h

theorem mergeStepA_length (st : List ScriptA.Record × ℕ × ℕ) (imp : ScriptA.Record) :
    st.1.length ≤ (ScriptA.mergeStep st imp).1.length := by
  rcases st with ⟨recs, a, u⟩
  cases hf : recs.findIdx? (fun r => r.id == imp.id) with
  | none => simp [ScriptA.mergeStep, hf]
  | some idx =>
    simp only [ScriptA.mergeStep, hf]
    split
    · simp
    · simp

theorem mergeStep2_preserves (x : String) (st : List ES.Record × ℕ × ℕ)
    (rec0 : ES.Record) (h : st.1.any (fun r => r.id == x) = true) :
    (ES2.mergeStep st rec0).1.any (fun r => r.id == x) = true := by
  rcases st with ⟨recs, a, u⟩
  simp only at h
  cases hf : recs.findIdx? (fun r => r.id == rec0.id) with
  | none =>
    simp only [ES2.mergeStep, hf, List.any_append]
    simp [h]
  | some idx =>
    obtain ⟨hlt, hp⟩ := findIdx?_some_getElem _ recs idx hf
    simp only [ES2.mergeStep, hf]
    split
    · refine any_set_of_any _ recs idx rec0 hlt ?_ h
      intro hx
      have h1 : (recs[idx]).id = rec0.id := by simpa using hp
      have h2 : (recs[idx]).id = x := by simpa using hx
      have h3 : rec0.id = x := h1.symm.trans h2
      simp [h3]
    · exact h

theorem mergeStep2_length (st : List ES.Record × ℕ × ℕ) (rec0 : ES.Record) :
    st.1.length ≤ (ES2.mergeStep st rec0).1.length := by
  rcases st with ⟨recs, a, u⟩
  cases hf : recs.findIdx? (fun r => r.id == rec0.id) with
  | none => simp [ES2.mergeStep, hf]
  | some idx =>
    simp only [ES2.mergeStep, hf]
    split
    · simp
    · simp

/-- C2 counterexample: the stats-tab import of the first part_001 app
replaces the whole collection with the imported array (line 204:
tradeRecords = imported), so importing an empty payload deletes the
existing record with id e1 and the record count drops from 1 to 0. -/
theorem c2_counterexample :
    ES1.statsTabImport [cexRecES] [] = []
  ∧ ([cexRecES] : List ES.Record).length = 1
  ∧ ([cexRecES] : List ES.Record).any (fun r => r.id == "e1") = true := by
  exact ⟨rfl, rfl, by rfl⟩

/-- C2 (amended): the merge-based imports never delete records — after
script.js mergeImportedRecords or a part_001 importRecords call, every id
present before is still present (carried by the old or the imported
record) and the record count never decreases; the stats-tab import of the
first part_001 app instead overwrites the whole collection with the
imported array and can drop records. -/
theorem c2_merge_imports_additive :
    (∀ (records imported : List ScriptA.Record) (x : String),
        records.any (fun r => r.id == x) = true →
        (ScriptA.mergeImportedRecords records imported).1.any (fun r => r.id == x) = true)
  ∧ (∀ (records imported : List ScriptA.Record),
        records.length ≤ (ScriptA.mergeImportedRecords records imported).1.length)
  ∧ (∀ (p : Payload ES.Record) (records : List ES.Record) (x : String),
        records.any (fun r => r.id == x) = true →
        (ES2.importRecords p records).1.1.any (fun r => r.id == x) = true)
  ∧ (∀ (p : Payload ES.Record) (records : List ES.Record),
        records.length ≤ (ES2.importRecords p records).1.1.length) := by
  refine ⟨?_, ?_, ?_, ?_⟩
  · intro records imported x h
    exact foldl_preserves ScriptA.mergeStep
      (fun st => st.1.any (fun r => r.id == x) = true)
      (fun st imp hb => mergeStepA_preserves x st imp hb) imported (records, 0, 0) h
  · intro records imported
    exact foldl_preserves ScriptA.mergeStep
      (fun st => records.length ≤ st.1.length)
      (fun st imp hb => le_trans hb (mergeStepA_length st imp)) imported (records, 0, 0)
      (le_refl _)
  · intro p records x h
    by_cases hv : p.version = some 1
    · cases hr : p.records with
      | none => simpa [ES2.importRecords, hv, hr] using h
      | some rs =>
        simp only [ES2.importRecords, hv, hr, if_true]
        exact foldl_preserves ES2.mergeStep
          (fun st => st.1.any (fun r => r.id == x) = true)
          (fun st r0 hb => mergeStep2_preserves x st r0 hb) rs (records, 0, 0) h
    · simpa [ES2.importRecords, hv] using h
  · intro p records
    by_cases hv : p.version = some 1
    · cases hr : p.records with
      | none => simp [ES2.importRecords, hv, hr]
      | some rs =>
        simp only [ES2.importRecords, hv, hr, if_true]
        exact foldl_preserves ES2.mergeStep
          (fun st => records.length ≤ st.1.length)
          (fun st r0 hb => le_trans hb (mergeStep2_length st r0)) rs (records, 0, 0)
          (le_refl _)
    · simp [ES2.importRecords, hv]

/-- C2 witness: the id e1 present before an importRecords call is still
present after it. -/
theorem c2_merge_imports_additive_witness :
    ([cexRecES] : List ES.Record).any (fun r => r.id == "e1") = true
  ∧ (ES2.importRecords ⟨some 1, some []⟩ [cexRecES]).1.1.any (fun r => r.id == "e1") = true :=
  ⟨by rfl, c2_merge_imports_additive.2.2.1 ⟨some 1, some []⟩ [cexRecES] "e1" (by rfl)⟩

/-! ### C3 — per-record import merge semantics -/

/-- C3 counterexample: the part_000 import keeps an existing record even
though the incoming record with the same id has a strictly newer
updatedAt — the store is unchanged and nothing is counted as updated
(the claimed replace-on-newer semantics does not hold there). -/
theorem c3_counterexample :
    P0.importFile cexPayload0 [cexRec0old] = (([cexRec0old], 0), false)
  ∧ strLtOpt cexRec0old.updatedAt cexRec0new.updatedAt = true
  ∧ cexRec0old.id = cexRec0new.id
  ∧ cexRec0old ≠ cexRec0new := by
  refine ⟨rfl, by decide, rfl, ?_⟩
  intro h
  have : cexRec0old.profit = cexRec0new.profit := by rw [h]
  simp [cexRec0old, cexRec0new] at this

/-- C3 (amended): in script.js mergeImportedRecords and part_001
importRecords an incoming record with an unseen id is appended and
counted as added, and an incoming record whose id already exists replaces
the existing record (counted as updated) exactly when its date is
strictly newer — updatedAt falling back to createdAt in script.js, plain
updatedAt comparison in part_001 — and the existing record is kept
unchanged otherwise; the part_000 import instead only appends unseen ids
and always keeps an existing record, whatever the updatedAt values. -/
theorem c3_merge_semantics :
    (∀ (recs : List ScriptA.Record) (a u : ℕ) (imp : ScriptA.Record),
        (∀ r ∈ recs, r.id ≠ imp.id) →
        ScriptA.mergeStep (recs, a, u) imp = (recs ++ [imp], a + 1, u))
  ∧ (∀ (l₁ l₂ : List ScriptA.Record) (ex : ScriptA.Record) (a u : ℕ)
        (imp : ScriptA.Record),
        ex.id = imp.id → (∀ r ∈ l₁, r.id ≠ imp.id) →
        ScriptA.mergeStep (l₁ ++ ex :: l₂, a, u) imp
          = if dateGt (jsOrStr imp.updatedAt imp.createdAt)
                (jsOrStr ex.updatedAt ex.createdAt)
            then (l₁ ++ imp :: l₂, a, u + 1)
            else (l₁ ++ ex :: l₂, a, u))
  ∧ (∀ (recs : List ES.Record) (a u : ℕ) (rec0 : ES.Record),
        (∀ r ∈ recs, r.id ≠ rec0.id) →
        ES2.mergeStep (recs, a, u) rec0 = (recs ++ [rec0], a + 1, u))
  ∧ (∀ (l₁ l₂ : List ES.Record) (ex : ES.Record) (a u : ℕ) (rec0 : ES.Record),
        ex.id = rec0.id → (∀ r ∈ l₁, r.id ≠ rec0.id) →
        ES2.mergeStep (l₁ ++ ex :: l₂, a, u) rec0
          = if strLtOpt ex.updatedAt rec0.updatedAt
            then (l₁ ++ rec0 :: l₂, a, u + 1)
            else (l₁ ++ ex :: l₂, a, u))
  ∧ (∀ (recs : List P0.Rec0) (imp : P0.Rec0),
        (∀ r ∈ recs, r.id ≠ imp.id) →
        P0.importStep recs imp = recs ++ [imp])
  ∧ (∀ (recs : List P0.Rec0) (imp : P0.Rec0) (r : P0.Rec0),
        r ∈ recs → r.id = imp.id →
        P0.importStep recs imp = recs) := by
  refine ⟨?_, ?_, ?_, ?_, ?_, ?_⟩
  · intro recs a u imp hne
    have hf : recs.findIdx? (fun r => r.id == imp.id) = none := by
      rw [List.findIdx?_eq_none_iff]
      intro r hr
      simpa using hne r hr
    simp [ScriptA.mergeStep, hf]
  · intro l₁ l₂ ex a u imp hexid hne
    have hex : (fun r : ScriptA.Record => r.id == imp.id) ex = true := by simp [hexid]
    have hall : ∀ r ∈ l₁, (fun r : ScriptA.Record => r.id == imp.id) r = false := by
      intro r hr
      simpa using hne r hr
    have hf := findIdx?_append_cons _ ex hex l₁ l₂ hall
    simp only [ScriptA.mergeStep, hf, getD_append_cons, set_append_cons]
  · intro recs a u rec0 hne
    have hf : recs.findIdx? (fun r => r.id == rec0.id) = none := by
      rw [List.findIdx?_eq_none_iff]
      intro r hr
      simpa using hne r hr
    simp [ES2.mergeStep, hf]
  · intro l₁ l₂ ex a u rec0 hexid hne
    have hex : (fun r : ES.Record => r.id == rec0.id) ex = true := by simp [hexid]
    have hall : ∀ r ∈ l₁, (fun r : ES.Record => r.id == rec0.id) r = false := by
      intro r hr
      simpa using hne r hr
    have hf := findIdx?_append_cons _ ex hex l₁ l₂ hall
    simp only [ES2.mergeStep, hf, getD_append_cons, set_append_cons]
  · intro recs imp hne
    have hany : recs.any (fun r => r.id == imp.id) = false := by
      rw [Bool.eq_false_iff]
      intro hcontra
      rw [List.any_eq_true] at hcontra
      obtain ⟨r, hr, hid⟩ := hcontra
      exact hne r hr (by simpa using hid)
    simp [P0.importStep, hany]
  · intro recs imp r hr hid
    have hany : recs.any (fun x => x.id == imp.id) = true := by
      rw [List.any_eq_true]
      exact ⟨r, hr, by simp [hid]⟩
    simp [P0.importStep, hany]

/-- C3 witness: an unseen id is appended and counted as added by the
script.js merge, and part_000 keeps the existing record with id A even
though the incoming one is strictly newer. -/
theorem c3_merge_semantics_witness :
    ScriptA.mergeStep ([], 0, 0) default = ([(default : ScriptA.Record)], 1, 0)
  ∧ cexRec0old ∈ [cexRec0old]
  ∧ P0.importStep [cexRec0old] cexRec0new = [cexRec0old] :=
  ⟨c3_merge_semantics.1 [] 0 0 default (by simp), by simp,
    c3_merge_semantics.2.2.2.2.2 [cexRec0old] cexRec0new cexRec0old (by simp) rfl⟩

/-! ### C10 — delete removes exactly one record and clears editing state -/

/-- C10 (confirmed): deleting an id present in the collection removes
exactly the record carrying it (the first match — the sole match under
the id-uniqueness hypotheses) and leaves every other record unchanged in
order; when the deleted id is the one loaded in the entry-editing or
exit-editing form, that editing id is cleared, and in every case neither
editing id can still equal the deleted id afterwards, so a subsequent
save cannot address the deleted record. -/
theorem c10_delete_record :
    ∀ (s : ES2.State) (id : String) (l₁ l₂ : List ES.Record) (ex : ES.Record),
      s.tradeRecords = l₁ ++ ex :: l₂ →
      ex.id = id →
      (∀ r ∈ l₁, r.id ≠ id) →
      (∀ r ∈ l₂, r.id ≠ id) →
      (ES2.deleteRecordById id s).tradeRecords = l₁ ++ l₂
    ∧ (∀ r ∈ (ES2.deleteRecordById id s).tradeRecords, r.id ≠ id)
    ∧ (ES2.deleteRecordById id s).editingEntryId
        = (if s.editingEntryId = some id then none else s.editingEntryId)
    ∧ (ES2.deleteRecordById id s).editingExitId
        = (if s.editingExitId = some id then none else s.editingExitId)
    ∧ (ES2.deleteRecordById id s).editingEntryId ≠ some id
    ∧ (ES2.deleteRecordById id s).editingExitId ≠ some id := by
  intro s id l₁ l₂ ex hrec hexid h₁ h₂
  have hex : (fun r : ES.Record => r.id == id) ex = true := by simp [hexid]
  have hall : ∀ r ∈ l₁, (fun r : ES.Record => r.id == id) r = false := by
    intro r hr
    simpa using h₁ r hr
  have hf : s.tradeRecords.findIdx? (fun r => r.id == id) = some l₁.length := by
    rw [hrec]
    exact findIdx?_append_cons _ ex hex l₁ l₂ hall
  have herase : s.tradeRecords.eraseIdx l₁.length = l₁ ++ l₂ := by
    rw [hrec]
    exact eraseIdx_append_cons ex l₁ l₂
  have hdel : ES2.deleteRecordById id s =
      (let s1 : ES2.State := { s with tradeRecords := s.tradeRecords.eraseIdx l₁.length }
       let s2 : ES2.State :=
         if s1.editingEntryId = some id then { s1 with editingEntryId := none } else s1
       if s2.editingExitId = some id then { s2 with editingExitId := none } else s2) := by
    simp only [ES2.deleteRecordById, hf]
  refine ⟨?_, ?_, ?_, ?_, ?_, ?_⟩
  · rw [hdel]
    simp only [herase]
    split <;> split <;> rfl
  · rw [hdel]
    simp only [herase]
    intro r hr
    have hr2 : r ∈ l₁ ++ l₂ := by
      revert hr
      split <;> split <;> exact fun hr => hr
    rcases List.mem_append.mp hr2 with h | h
    · exact h₁ r h
    · exact h₂ r h
  · rw [hdel]
    by_cases he : s.editingEntryId = some id <;> by_cases hx : s.editingExitId = some id <;>
      simp [he, hx]
  · rw [hdel]
    by_cases he : s.editingEntryId = some id <;> by_cases hx : s.editingExitId = some id <;>
      simp [he, hx]
  · rw [hdel]
    by_cases he : s.editingEntryId = some id <;> by_cases hx : s.editingExitId = some id <;>
      simp [he, hx]
  · rw [hdel]
    by_cases he : s.editingEntryId = some id <;> by_cases hx : s.editingExitId = some id <;>
      simp [he, hx]

/-- C10 witness: deleting id e1 from the one-record state empties the
collection and clears both editing ids. -/
theorem c10_delete_record_witness :
    cexState.tradeRecords = [] ++ cexRecES :: []
  ∧ (ES2.deleteRecordById "e1" cexState).tradeRecords = [] ++ []
  ∧ (ES2.deleteRecordById "e1" cexState).editingEntryId ≠ some "e1"
  ∧ (ES2.deleteRecordById "e1" cexState).editingExitId ≠ some "e1" :=
  ⟨rfl,
    (c10_delete_record cexState "e1" [] [] cexRecES rfl rfl (by simp) (by simp)).1,
    (c10_delete_record cexState "e1" [] [] cexRecES rfl rfl (by simp) (by simp)).2.2.2.2.1,
    (c10_delete_record cexState "e1" [] [] cexRecES rfl rfl (by simp) (by simp)).2.2.2.2.2⟩

/-! ### C6 — tiered matching walks strict-to-loose and stops at the
minimum sample size -/

/-- C6 (confirmed): both tier-based engines walk matchLevels in order and
select, at each tier, the candidates matching every field of that tier
exactly; the result is the match set of the FIRST tier reaching the
minimum sample size (3 in script.js computePrediction, 5 in part_000
predictTrade), or the match set of the loosest tier when no tier reaches the
minimum; the second component — consumed by the confidence formulas of
computePrediction and predictTrade — records the 1-based number of the
tier actually used (5, the number of tiers, on fallback). -/
theorem c6_tiered_selection :
    (∀ (trades : List ScriptB.Trade) (entry : ScriptB.Trade),
      ScriptB.predictionSelect trades entry =
        match firstHit
            (fun l => decide (3 ≤ ((trades.filter (·.hasResult)).filter (ScriptB.tierSat entry l)).length))
            matchLevels with
        | some j =>
          ((trades.filter (·.hasResult)).filter (ScriptB.tierSat entry (matchLevels.getD j [])),
            j + 1)
        | none =>
          ((trades.filter (·.hasResult)).filter (ScriptB.tierSat entry (matchLevels.getLastD [])),
            matchLevels.length))
  ∧ (∀ (records : List P0.Rec0) (features : P0.Features),
      P0.predictSelect records features =
        match firstHit
            (fun l => decide (5 ≤ (records.filter (P0.tierSat features l)).length))
            matchLevels with
        | some j => (records.filter (P0.tierSat features (matchLevels.getD j [])), j + 1)
        | none =>
          (records.filter (P0.tierSat features (matchLevels.getLastD [])),
            matchLevels.length)) := by
  constructor
  · intro trades entry
    have h := tierLoop_eq_firstHit (trades.filter (·.hasResult)) (ScriptB.tierSat entry) 3
      matchLevels 0 (by simp [matchLevels])
    rw [ScriptB.predictionSelect, h]
    cases hfh : firstHit
        (fun l => decide (3 ≤ ((trades.filter (·.hasResult)).filter (ScriptB.tierSat entry l)).length))
        matchLevels with
    | none => simp
    | some j => simp
  · intro records features
    have h := tierLoop_eq_firstHit records (P0.tierSat features) 5 matchLevels 0
      (by simp [matchLevels])
    rw [P0.predictSelect, h]
    cases hfh : firstHit
        (fun l => decide (5 ≤ (records.filter (P0.tierSat features l)).length)) matchLevels with
    | none => simp
    | some j => simp

/-! ### C5 — only closed records feed the engines -/

theorem all_filter_of_all {α : Type} (p q : α → Bool) (l : List α)
    (h : l.all p = true) : (l.filter q).all p = true := by
  rw [List.all_eq_true] at h ⊢
  intro x hx
  exact h x (List.mem_of_mem_filter hx)

theorem filter_all_self {α : Type} (p : α → Bool) (l : List α) :
    (l.filter p).all p = true := by
  rw [List.all_eq_true]
  intro x hx
  exact (List.mem_filter.mp hx).2

theorem filter_self_idem {α : Type} (p : α → Bool) (l : List α) :
    (l.filter p).filter p = l.filter p := by
  rw [List.filter_filter]
  exact List.filter_congr (fun x _ => Bool.and_self (p x))

theorem tierLoop_fst_all {α κ : Type} (pool : List α) (sat : List κ → α → Bool)
    (minN : ℕ) (p : α → Bool) (hp : pool.all p = true) :
    ∀ (lvls : List (List κ)) (i : ℕ), ((tierLoop pool sat minN lvls i).1).all p = true := by
  intro lvls
  induction lvls with
  | nil => intro i; simp [tierLoop]
  | cons l rest ih =>
    intro i
    cases rest with
    | nil => simpa [tierLoop] using all_filter_of_all p (sat l) pool hp
    | cons r rs =>
      simp only [tierLoop]
      split
      · exact all_filter_of_all p (sat l) pool hp
      · exact ih (i + 1)

/-- C5 counterexample: the part_000 predictTrade draws its candidate pool
from ALL records with no closed-trade filter, so unresolved records (no
exit price, no move, no profit) change its output: five unresolved long
records matching the candidate profile raise the returned confidence from
0 (empty history) to 45. -/
theorem c5_counterexample :
    (∀ r ∈ cexPool0, r.profit = none ∧ r.exit_price = none ∧ r.move = none)
  ∧ (P0.predictTrade cexPool0 cexFeat0).confidence = 45
  ∧ (P0.predictTrade [] cexFeat0).confidence = 0 := by
  refine ⟨?_, ?_, ?_⟩
  · intro r hr
    simp only [cexPool0, List.mem_cons, List.not_mem_nil, or_false] at hr
    rcases hr with h | h | h | h | h <;> (subst h; exact ⟨rfl, rfl, rfl⟩)
  · have hsel : P0.predictSelect cexPool0 cexFeat0 = (cexPool0, 1) := by rfl
    simp only [P0.predictTrade, hsel]
    norm_num [cexPool0, cexOpenRec0, List.filter, List.foldl, jsRound]
  · have hsel : P0.predictSelect [] cexFeat0 = ([], 5) := by rfl
    simp only [P0.predictTrade, hsel]
    norm_num [jsRound]

/-- C5 (amended): in script.js computePrediction and in the first
part_001 judgeTrade, every record of the similar-case pool satisfies
hasResult = true, and the whole result is unchanged when the unresolved
records are removed from the input collection — open records never affect
the recommendation, confidence or expected move there; the part_000
predictTrade, by contrast, pools all records without a hasResult filter
(see the counterexample). -/
theorem c5_closed_records_only :
    (∀ (trades : List ScriptB.Trade) (entry : ScriptB.Trade),
        (ScriptB.predictionSelect trades entry).1.all (·.hasResult) = true
      ∧ ScriptB.computePrediction trades entry
          = ScriptB.computePrediction (trades.filter (·.hasResult)) entry)
  ∧ (∀ (records : List ES.Record) (entry : ES.Entry),
        (ES1.similarCases records entry).all (·.hasResult) = true
      ∧ ES1.judgeTrade records entry
          = ES1.judgeTrade (records.filter (·.hasResult)) entry) := by
  constructor
  · intro trades entry
    have hsel : ScriptB.predictionSelect (trades.filter (·.hasResult)) entry
        = ScriptB.predictionSelect trades entry := by
      simp only [ScriptB.predictionSelect, filter_self_idem]
    constructor
    · exact tierLoop_fst_all _ _ _ _ (filter_all_self _ trades) matchLevels 0
    · simp only [ScriptB.computePrediction, hsel]
  · intro records entry
    have hcand : ES1.candidates (records.filter (·.hasResult)) entry
        = ES1.candidates records entry := by
      simp only [ES1.candidates, List.filter_filter]
      exact List.filter_congr (fun x _ => by
        cases hs : (x.symbol == entry.symbol) <;> cases hh : x.hasResult <;> simp [hs, hh])
    have hsim : ES1.similarCases (records.filter (·.hasResult)) entry
        = ES1.similarCases records entry := by
      simp only [ES1.similarCases, hcand]
    constructor
    · have hcandAll : (ES1.candidates records entry).all (·.hasResult) = true := by
        rw [List.all_eq_true]
        intro x hx
        have hmem := (List.mem_filter.mp hx).2
        simp only [Bool.and_eq_true] at hmem
        exact hmem.2
      exact all_filter_of_all _ _ _ hcandAll
    · simp only [ES1.judgeTrade, hsim]

/-! ### C7 — behavior of the engines on an empty similar-case pool -/

/-- C7 counterexample: the first part_001 judgeTrade answers an empty
similar-case pool with flat and confidence 0, but its result object
carries NO reason field at all (modelled as reason = none) — so the
claimed "reason stating that no historical data exists" is not returned
by this cited operation. -/
theorem c7_counterexample :
    (ES1.judgeTrade [] cexEntryES).reason = none
  ∧ (ES1.judgeTrade [] cexEntryES).recommendation = "flat"
  ∧ (ES1.judgeTrade [] cexEntryES).confidence = 0 := by
  exact ⟨rfl, rfl, rfl⟩

/-- C7 (amended): with an empty similar-case pool every engine returns a
fixed result independent of the candidate profile — flat recommendation
and confidence 0 in all three; the part_000 predictTrade and the second
part_001 judgeTrade additionally return their fixed no-similar-data
reason strings, while the first part_001 judgeTrade returns no reason
field at all. -/
theorem c7_empty_pool :
    (∀ (records : List ES.Record) (entry : ES.Entry),
        ES1.similarCases records entry = [] →
        ES1.judgeTrade records entry =
          { recommendation := "flat", winRate := some 0, confidence := 0,
            expectedMove := none, expectedMoveUnit := none, avgProfit := none,
            avgLoss := none, pseudoCaseCount := some 0, reason := none })
  ∧ (∀ (records : List ES.Record) (entry : ES.Entry),
        ES2.similarRecords records entry = [] →
        ES2.judgeTrade records entry =
          { recommendation := "flat", winRate := none, confidence := 0,
            expectedMove := none, expectedMoveUnit := none, avgProfit := none,
            avgLoss := none, pseudoCaseCount := none,
            reason := some "類似ケースがありません。ノーポジ推奨。" })
  ∧ (∀ (records : List P0.Rec0) (features : P0.Features),
        (P0.predictSelect records features).1 = [] →
        P0.predictTrade records features =
          { recommendation := "flat", expectedMove := 0, confidence := 0,
            reason := "類似パターンが少ないため、ポジションを取らない方が良いと判断しました。" }) := by
  refine ⟨?_, ?_, ?_⟩
  · intro records entry h
    simp [ES1.judgeTrade, h]
  · intro records entry h
    simp [ES2.judgeTrade, h]
  · intro records features h
    simp only [P0.predictTrade, h]
    norm_num [jsRound]

/-- C7 witness: the empty record collection gives an empty pool in all
three engines, and the fixed flat results follow. -/
theorem c7_empty_pool_witness :
    ES1.similarCases [] cexEntryES = []
  ∧ ES2.similarRecords [] cexEntryES = []
  ∧ (P0.predictSelect [] cexFeat0).1 = []
  ∧ (ES1.judgeTrade [] cexEntryES).confidence = 0
  ∧ (ES2.judgeTrade [] cexEntryES).reason = some "類似ケースがありません。ノーポジ推奨。"
  ∧ (P0.predictTrade [] cexFeat0).recommendation = "flat" :=
  ⟨rfl, rfl, rfl,
    by rw [c7_empty_pool.1 [] cexEntryES rfl],
    by rw [c7_empty_pool.2.1 [] cexEntryES rfl],
    by rw [c7_empty_pool.2.2 [] cexFeat0 rfl]⟩
